import Mathlib

/-!
Verification of the CloneSet canary controller (pkg/canary/cloneset_controller.go
and pkg/canary/factory.go) against its natural-language specification.

The Go code is shallowly embedded: Kubernetes objects become Lean structures,
Go maps become association lists (`mapGet`/`mapSet`/`mapDel` mirror Go map
reads, writes and deletes; nil maps are `Option.none`), and the Kubernetes /
Kruise API client becomes explicit state passing over a cluster store plus a
log of the API calls that were issued.  Failures of API calls and of the
external ConfigTracker collaborator are injected through an environment
record, so that error-propagation properties can be stated by quantifying
over all injected outcomes.
-/

/-! ## Go maps as association lists -/

/-- Go `m[k]` read (with ok-flag): first entry with the given key. -/
def mapGet : List (String × String) → String → Option String
  | [], _ => none
  | e :: rest, k => if e.1 = k then some e.2 else mapGet rest k

/-- Go `m[k] = v`: replace the entry when the key is present, append otherwise. -/
def mapSet : List (String × String) → String → String → List (String × String)
  | [], k, v => [(k, v)]
  | e :: rest, k, v => if e.1 = k then (k, v) :: rest else e :: mapSet rest k v

/-- Go `delete(m, k)`. -/
def mapDel : List (String × String) → String → List (String × String)
  | [], _ => []
  | e :: rest, k => if e.1 = k then mapDel rest k else e :: mapDel rest k

@[simp] theorem mapGet_nil (k : String) : mapGet [] k = none := rfl

@[simp] theorem mapGet_cons (e : String × String) (rest : List (String × String)) (k : String) :
    mapGet (e :: rest) k = if e.1 = k then some e.2 else mapGet rest k := rfl

@[simp] theorem mapSet_nil (k v : String) : mapSet [] k v = [(k, v)] := rfl

@[simp] theorem mapSet_cons (e : String × String) (rest : List (String × String)) (k v : String) :
    mapSet (e :: rest) k v = if e.1 = k then (k, v) :: rest else e :: mapSet rest k v := rfl

@[simp] theorem mapDel_nil (k : String) : mapDel [] k = [] := rfl

@[simp] theorem mapDel_cons (e : String × String) (rest : List (String × String)) (k : String) :
    mapDel (e :: rest) k = if e.1 = k then mapDel rest k else e :: mapDel rest k := rfl

theorem mapSet_mapSet (m : List (String × String)) (k v : String) :
    mapSet (mapSet m k v) k v = mapSet m k v := by
  induction m with
  | nil => simp
  | cons e rest ih =>
    by_cases h : e.1 = k
    · simp [h]
    · simp [h, ih]

theorem mapDel_mapSet (m : List (String × String)) (k v : String) :
    mapDel (mapSet m k v) k = mapDel m k := by
  induction m with
  | nil => simp
  | cons e rest ih =>
    by_cases h : e.1 = k
    · simp [h]
    · simp [h, ih]

theorem mapDel_mapDel (m : List (String × String)) (k : String) :
    mapDel (mapDel m k) k = mapDel m k := by
  induction m with
  | nil => simp
  | cons e rest ih =>
    by_cases h : e.1 = k
    · simp [h, ih]
    · simp [h, ih]

theorem mapGet_mapSet_self (m : List (String × String)) (k v : String) :
    mapGet (mapSet m k v) k = some v := by
  induction m with
  | nil => simp
  | cons e rest ih =>
    by_cases h : e.1 = k
    · simp [h]
    · simp [h, ih]

theorem mapGet_mapSet_other (m : List (String × String)) (k v k' : String) (h : k' ≠ k) :
    mapGet (mapSet m k v) k' = mapGet m k' := by
  induction m with
  | nil => simp [Ne.symm h]
  | cons e rest ih =>
    by_cases he : e.1 = k
    · subst he
      simp [Ne.symm h]
    · by_cases he' : e.1 = k'
      · simp [he, he', h]
      · simp [he, he', ih]

theorem mapGet_mapDel_self (m : List (String × String)) (k : String) :
    mapGet (mapDel m k) k = none := by
  induction m with
  | nil => simp
  | cons e rest ih =>
    by_cases h : e.1 = k
    · simp [h, ih]
    · simp [h, ih]

theorem mapGet_mapDel_other (m : List (String × String)) (k k' : String) (h : k' ≠ k) :
    mapGet (mapDel m k) k' = mapGet m k' := by
  induction m with
  | nil => simp
  | cons e rest ih =>
    by_cases he : e.1 = k
    · subst he
      simp [Ne.symm h, ih]
    · by_cases he' : e.1 = k'
      · simp [he, he', h]
      · simp [he, he', ih]

theorem mapDel_of_mapGet_none (m : List (String × String)) (k : String)
    (h : mapGet m k = none) : mapDel m k = m := by
  induction m with
  | nil => simp
  | cons e rest ih =>
    by_cases he : e.1 = k
    · simp [he] at h
    · simp [he] at h ⊢
      exact ih h

/-! ## The cluster store

The live cluster is a list of CloneSet objects keyed by (namespace, name);
`clusterGet`, `clusterSet` and `clusterAdd` model the API server's read,
update and create operations on that store. -/

/-- A CloneSet status condition (kruise `CloneSetCondition`). -/
structure CloneSetCondition where
  condType : String
  status : String
  reason : String
  lastTransitionTime : Int
deriving DecidableEq

/-- `CloneSetStatus` fields read by the readiness classifier. -/
structure CloneSetStatus where
  observedGeneration : Int
  replicas : Int
  updatedReplicas : Int
  availableReplicas : Int
deriving DecidableEq

/-- Pod spec: the node selector is `none` when the Go map is nil; `configRefs`
stands for the secret/config references rewritten by the ConfigTracker. -/
structure PodSpec where
  nodeSelector : Option (List (String × String))
  containers : List (String × Int)
  configRefs : List String
deriving DecidableEq

/-- `corev1.PodTemplateSpec`: object meta (labels, annotations) plus pod spec. -/
structure PodTemplateSpec where
  labels : List (String × String)
  annotations : List (String × String)
  spec : PodSpec
deriving DecidableEq

/-- `kruiseappsv1alpha1.CloneSetSpec`: `replicas` is a `*int32`, hence `Option`. -/
structure CloneSetSpec where
  replicas : Option Int
  minReadySeconds : Int
  revisionHistoryLimit : Option Int
  updateStrategyType : String
  selectorMatchLabels : List (String × String)
  template : PodTemplateSpec
deriving DecidableEq

/-- A CloneSet object: object meta, spec, generation and status. -/
structure CloneSet where
  name : String
  ns : String
  labels : List (String × String)
  annotations : List (String × String)
  ownerRefs : List String
  generation : Int
  spec : CloneSetSpec
  status : CloneSetStatus
deriving DecidableEq

/-- The canary descriptor fields this controller reads.  `phase` is
`cd.Status.Phase`, `targetName` is `cd.Spec.TargetRef.Name`,
`skipAnalysisFlag` is `cd.SkipAnalysis()`, and `lastAppliedTemplate` is the
previously recorded structural hash consumed by `hasSpecChanged` (a perfect
hash is modelled by the hashed value itself). -/
structure Canary where
  name : String
  ns : String
  targetName : String
  phase : String
  skipAnalysisFlag : Bool
  progressDeadlineSeconds : Int
  portDiscovery : Bool
  lastAppliedTemplate : Option PodTemplateSpec
deriving DecidableEq

def clusterGet : List ((String × String) × CloneSet) → String × String → Option CloneSet
  | [], _ => none
  | e :: rest, k => if e.1 = k then some e.2 else clusterGet rest k

def clusterSet : List ((String × String) × CloneSet) → String × String → CloneSet →
    List ((String × String) × CloneSet)
  | [], _, _ => []
  | e :: rest, k, v => (if e.1 = k then (k, v) else e) :: clusterSet rest k v

def clusterAdd (c : List ((String × String) × CloneSet)) (k : String × String) (v : CloneSet) :
    List ((String × String) × CloneSet) :=
  c ++ [(k, v)]

@[simp] theorem clusterGet_nil (k : String × String) : clusterGet [] k = none := rfl

@[simp] theorem clusterGet_cons (e : (String × String) × CloneSet)
    (rest : List ((String × String) × CloneSet)) (k : String × String) :
    clusterGet (e :: rest) k = if e.1 = k then some e.2 else clusterGet rest k := rfl

@[simp] theorem clusterSet_nil (k : String × String) (v : CloneSet) :
    clusterSet [] k v = [] := rfl

@[simp] theorem clusterSet_cons (e : (String × String) × CloneSet)
    (rest : List ((String × String) × CloneSet)) (k : String × String) (v : CloneSet) :
    clusterSet (e :: rest) k v = (if e.1 = k then (k, v) else e) :: clusterSet rest k v := rfl

theorem clusterGet_clusterSet_self (c : List ((String × String) × CloneSet))
    (k : String × String) (v x : CloneSet) (h : clusterGet c k = some x) :
    clusterGet (clusterSet c k v) k = some v := by
  induction c with
  | nil => simp at h
  | cons e rest ih =>
    by_cases he : e.1 = k
    · simp [he]
    · simp [he] at h ⊢
      exact ih h

theorem clusterGet_clusterSet_other (c : List ((String × String) × CloneSet))
    (k k' : String × String) (v : CloneSet) (h : k' ≠ k) :
    clusterGet (clusterSet c k v) k' = clusterGet c k' := by
  induction c with
  | nil => simp
  | cons e rest ih =>
    by_cases he : e.1 = k
    · subst he
      simp [Ne.symm h, ih]
    · by_cases he' : e.1 = k'
      · simp [he, he', h]
      · simp [he, he', ih]

theorem clusterSet_clusterSet (c : List ((String × String) × CloneSet))
    (k : String × String) (v w : CloneSet) :
    clusterSet (clusterSet c k v) k w = clusterSet c k w := by
  induction c with
  | nil => simp
  | cons e rest ih =>
    by_cases he : e.1 = k
    · simp [he, ih]
    · simp [he, ih]

theorem clusterGet_clusterAdd_other (c : List ((String × String) × CloneSet))
    (k k' : String × String) (v : CloneSet) (h : k' ≠ k) :
    clusterGet (clusterAdd c k v) k' = clusterGet c k' := by
  induction c with
  | nil => simp [clusterAdd, Ne.symm h]
  | cons e rest ih =>
    by_cases he : e.1 = k'
    · simp [clusterAdd, he]
    · simp [clusterAdd, he] at ih ⊢
      exact ih

/-! ## Errors, the API-call log, and the environment -/

/-- Readiness-classifier errors, one constructor per `fmt.Errorf` site of
`isCloneSetReady` (factory.go). -/
inductive CsErr
  | progressDeadlineExceeded (name : String)
  | rolloutReplicasUpdating (updated declared : Int)
  | rolloutOldReplicas (pending : Int)
  | rolloutUnavailable (available updated : Int)
  | observedGenerationBehind
deriving DecidableEq

/-- Errors returned by the controller, one constructor per distinct error
shape of the source: API errors, the configuration errors, the readiness
wrappers, and generic `fmt.Errorf("...: %w", err)` wrapping. -/
inductive GoErr
  | notFound (ns name : String)
  | transient (msg : String)
  | alreadyExists (ns name : String)
  | selectorLabelMissing (name ns : String) (labels : List String)
  | strategyIncompatible (name ns strategy : String)
  | primaryScaledToZero (name ns : String)
  | notReady (name ns : String) (cause : CsErr)
  | canaryNotReady (name ns : String) (cause : CsErr)
  | wrap (msg : String) (cause : GoErr)
deriving DecidableEq

/-- Go `errors.IsNotFound` applied to a fresh client error (no unwrapping,
as in the source, which applies it directly to the `Get` error). -/
def GoErr.isNotFound : GoErr → Bool
  | .notFound _ _ => true
  | _ => false

inductive CallKind
  | get
  | create
  | update
deriving DecidableEq

inductive CallRes
  | ok
  | notFound
  | failed
deriving DecidableEq

/-- One API request issued against the cluster, with its outcome. -/
structure ApiCall where
  kind : CallKind
  ns : String
  name : String
  res : CallRes
deriving DecidableEq

/-- The evolving world: the cluster store plus the log of API calls issued. -/
structure St where
  cluster : List ((String × String) × CloneSet)
  log : List ApiCall
deriving DecidableEq

/-- The controller's configuration (`c.labels`, `c.includeLabelPrefix`),
the injected outcomes of API calls (a `some msg` entry makes the matching
call fail with a transient API error), the injected outcomes of the external
ConfigTracker collaborator, the annotation token consumed by
`makeAnnotations`, and the current wall-clock time. -/
structure Env where
  labels : List String
  includeLabelPrefixes : List String
  getFail : String → String → Option String
  updateFail : String → String → Option String
  createFail : String → String → Option String
  targetConfigs : Except GoErr (List String)
  createConfigsFail : Option GoErr
  hasConfigChangedRes : Except GoErr Bool
  annotationToken : String
  now : Int

def logCall (s : St) (c : ApiCall) : St :=
  { s with log := s.log ++ [c] }

/-- `kruiseClient...Get`: injected failure, else cluster lookup. -/
def getCloneSet (env : Env) (s : St) (ns name : String) : Except GoErr CloneSet × St :=
  match env.getFail ns name with
  | some m => (.error (.transient m), logCall s ⟨.get, ns, name, .failed⟩)
  | none =>
    match clusterGet s.cluster (ns, name) with
    | some cs => (.ok cs, logCall s ⟨.get, ns, name, .ok⟩)
    | none => (.error (.notFound ns name), logCall s ⟨.get, ns, name, .notFound⟩)

/-- `kruiseClient...Update`: injected failure, else replace the stored object. -/
def updateCloneSet (env : Env) (s : St) (cs : CloneSet) : Except GoErr CloneSet × St :=
  match env.updateFail cs.ns cs.name with
  | some m => (.error (.transient m), logCall s ⟨.update, cs.ns, cs.name, .failed⟩)
  | none =>
    match clusterGet s.cluster (cs.ns, cs.name) with
    | some _ =>
      (.ok cs, { cluster := clusterSet s.cluster (cs.ns, cs.name) cs,
                 log := s.log ++ [⟨.update, cs.ns, cs.name, .ok⟩] })
    | none => (.error (.notFound cs.ns cs.name), logCall s ⟨.update, cs.ns, cs.name, .notFound⟩)

/-- `kruiseClient...Create`: injected failure, else insert the new object. -/
def createCloneSet (env : Env) (s : St) (cs : CloneSet) : Except GoErr CloneSet × St :=
  match env.createFail cs.ns cs.name with
  | some m => (.error (.transient m), logCall s ⟨.create, cs.ns, cs.name, .failed⟩)
  | none =>
    match clusterGet s.cluster (cs.ns, cs.name) with
    | some _ => (.error (.alreadyExists cs.ns cs.name), logCall s ⟨.create, cs.ns, cs.name, .failed⟩)
    | none =>
      (.ok cs, { cluster := clusterAdd s.cluster (cs.ns, cs.name) cs,
                 log := s.log ++ [⟨.create, cs.ns, cs.name, .ok⟩] })

/-! ## External collaborators and helpers defined outside this slice -/

/-- Modelled from the spec: `ConfigTracker.GetTargetConfigs` returns the set
of referenced secret/config objects; its outcome is injected through the
environment (the tracker is an external collaborator, contract only). -/
def trackerGetTargetConfigs (env : Env) : Except GoErr (List String) :=
  env.targetConfigs

/-- Modelled from the spec: `ConfigTracker.CreatePrimaryConfigs` creates
primary-labeled copies of the referenced configs; outcome injected. -/
def trackerCreatePrimaryConfigs (env : Env) : Except GoErr Unit :=
  match env.createConfigsFail with
  | some e => .error e
  | none => .ok ()

/-- Modelled from the spec: `ConfigTracker.ApplyPrimaryConfigs` rewrites a
pod spec to reference the primary copies of the tracked config objects,
leaving every other field unchanged. -/
def applyPrimaryConfigs (spec : PodSpec) (refs : List String) : PodSpec :=
  { spec with configRefs := spec.configRefs.map (fun r => if refs.contains r then r ++ "-primary" else r) }

/-- Modelled from the spec: `makePrimaryLabels` (defined outside this slice)
copies the given labels and sets the selector label key to the primary label
value. -/
def makePrimaryLabels (labels : List (String × String)) (labelValue label : String) :
    List (String × String) :=
  mapSet labels label labelValue

/-- Modelled from the spec: `includeLabelsByPrefix` keeps only the labels
whose key starts with one of the configured prefixes (the label-prefix
allow-list for copying metadata onto the primary). -/
def includeLabelsByPrefix (labels : List (String × String)) (prefixes : List String) :
    List (String × String) :=
  labels.filter (fun kv => prefixes.any (fun p => kv.1.startsWith p))

/-- Modelled from the spec: `makeAnnotations` regenerates the pod-template
annotations with a fresh revision token so the platform recognizes a new
revision; the original can fail, hence the `Except` shape (in this model it
always succeeds). -/
def makeAnnotations (token : String) (annotations : List (String × String)) :
    Except GoErr (List (String × String)) :=
  .ok (mapSet annotations "flagger-id" token)

/-- Modelled from the spec: `hasSpecChanged` compares a structural hash of
the pod template with the previously recorded hash maintained by the
external descriptor layer; a perfect structural hash is modelled by the
template value itself.  True when nothing was recorded yet. -/
def hasSpecChanged (cd : Canary) (template : PodTemplateSpec) : Bool :=
  match cd.lastAppliedTemplate with
  | none => true
  | some recorded => decide (recorded ≠ template)

/-- Modelled from the spec: `getPorts` extracts the named container ports
for service port discovery. -/
def getPorts (containers : List (String × Int)) : List (String × Int) :=
  containers

/-- The kruise constant `RecreateCloneSetUpdateStrategyType` ("ReCreate"),
the CloneSet default update strategy (delete Pod and create a new one during
a rolling update). -/
def RecreateCloneSetUpdateStrategyType : String := "ReCreate"

/-- Go: `primary.Spec.Replicas == int32p(0)`.  `int32p` (defined outside
this slice as `func int32p(i int32) *int32 { return &i }`) allocates a fresh
`int32`, and `==` on two `*int32` values compares addresses, so the
comparison is false for every input: the fresh allocation's address differs
from `nil` and from every live pointer. -/
def replicasPtrEqFreshZero (_replicas : Option Int) : Bool := false

/-! ## Readiness classifier (factory.go) -/

/-- `getCloneSetCondition`: the source is an unimplemented stub marked
`@TODO implement logic` that always returns nil. -/
def getCloneSetCondition : Option CloneSetCondition := none

/-- The last two `else if` branches of `isCloneSetReady` (old replicas
pending termination; updated replicas not yet available). -/
def cloneSetReplicaChecksTail (cloneSet : CloneSet) (retriable : Bool) : Bool × Option CsErr :=
  if cloneSet.status.replicas > cloneSet.status.updatedReplicas then
    (retriable, some (.rolloutOldReplicas (cloneSet.status.replicas - cloneSet.status.updatedReplicas)))
  else if cloneSet.status.availableReplicas < cloneSet.status.updatedReplicas then
    (retriable, some (.rolloutUnavailable cloneSet.status.availableReplicas cloneSet.status.updatedReplicas))
  else (true, none)

/-- The replica-count checks of `isCloneSetReady` (the three `else if`
branches following the deadline check; the first one dereferences
`Spec.Replicas` only when the pointer is non-nil). -/
def cloneSetReplicaChecks (cloneSet : CloneSet) (retriable : Bool) : Bool × Option CsErr :=
  match cloneSet.spec.replicas with
  | some declared =>
    if cloneSet.status.updatedReplicas < declared then
      (retriable, some (.rolloutReplicasUpdating cloneSet.status.updatedReplicas declared))
    else cloneSetReplicaChecksTail cloneSet retriable
  | none => cloneSetReplicaChecksTail cloneSet retriable

/-- `isCloneSetReady`: returns (retriable, error); source lines 173-205 of
factory.go, with the condition lookups going through the
`getCloneSetCondition` stub exactly as in the source. -/
def isCloneSetReady (cloneSet : CloneSet) (deadline : Int) (now : Int) : Bool × Option CsErr :=
  if cloneSet.generation ≤ cloneSet.status.observedGeneration then
    let retriable : Bool :=
      match getCloneSetCondition with
      | some _ =>
        match getCloneSetCondition with
        | some available =>
          if available.status = "False" ∧ available.reason = "MinimumReplicasUnavailable" then
            decide (¬ (available.lastTransitionTime + deadline < now))
          else true
        | none => true
      | none => true
    match getCloneSetCondition with
    | some progress =>
      if progress.reason = "ProgressDeadlineExceeded" then
        (false, some (.progressDeadlineExceeded cloneSet.name))
      else cloneSetReplicaChecks cloneSet retriable
    | none => cloneSetReplicaChecks cloneSet retriable
  else
    (true, some .observedGenerationBehind)

/-! ## CloneSet controller operations (cloneset_controller.go) -/

/-- The fixed scale-to-zero sentinel `cloneSetScaleDownNodeSelector`. -/
def cloneSetScaleDownNodeSelector : List (String × String) :=
  [("flagger.app/scale-to-zero", "true")]

/-- Replace a CloneSet's pod-template node selector (Go mutates the deep
copy in place; the pure model rebuilds the nested structure). -/
def setNodeSelector (cs : CloneSet) (sel : Option (List (String × String))) : CloneSet :=
  { cs with spec := { cs.spec with template := { cs.spec.template with
      spec := { cs.spec.template.spec with nodeSelector := sel } } } }

/-- Replace a pod template's node selector. -/
def setTemplateNodeSelector (t : PodTemplateSpec) (sel : Option (List (String × String))) :
    PodTemplateSpec :=
  { t with spec := { t.spec with nodeSelector := sel } }

/-- The `for k, v := range cloneSetScaleDownNodeSelector` insertion loop of
`ScaleToZero` (the preceding copy loop is the identity in a pure model; the
`make` turns a nil map into an empty one, hence `getD []`). -/
def addScaleDownSelector (sel : Option (List (String × String))) : List (String × String) :=
  cloneSetScaleDownNodeSelector.foldl (fun acc kv => mapSet acc kv.1 kv.2) (sel.getD [])

/-- The `for k := range cloneSetScaleDownNodeSelector { delete(...) }` loop;
Go `delete` on a nil map is a no-op, hence `Option.map`. -/
def delScaleDownSelector (sel : Option (List (String × String))) :
    Option (List (String × String)) :=
  cloneSetScaleDownNodeSelector.foldl (fun acc kv => acc.map (fun m => mapDel m kv.1)) sel

/-- `getSelectorLabel`'s scan of the candidate keys against the selector
match-labels: the first present candidate wins. -/
def findSelectorLabel : List String → List (String × String) → Option (String × String)
  | [], _ => none
  | l :: rest, m =>
    match mapGet m l with
    | some v => some (l, v)
    | none => findSelectorLabel rest m

/-- `getSelectorLabel` (cloneset_controller.go lines 306-317). -/
def getSelectorLabel (env : Env) (cloneSet : CloneSet) : Except GoErr (String × String) :=
  match findSelectorLabel env.labels cloneSet.spec.selectorMatchLabels with
  | some lv => .ok lv
  | none => .error (.selectorLabelMissing cloneSet.name cloneSet.ns env.labels)

/-- `IsPrimaryReady` (factory.go lines 131-149). -/
def IsPrimaryReady (env : Env) (cd : Canary) (s : St) : Except GoErr Unit × St :=
  let primaryName := cd.targetName ++ "-primary"
  match getCloneSet env s cd.ns primaryName with
  | (.error e, s₁) =>
    (.error (.wrap ("cloneset " ++ primaryName ++ "." ++ cd.ns ++ " get query error") e), s₁)
  | (.ok primary, s₁) =>
    match (isCloneSetReady primary cd.progressDeadlineSeconds env.now).2 with
    | some e => (.error (.wrap (primaryName ++ "." ++ cd.ns ++ " not ready")
        (.notReady primaryName cd.ns e)), s₁)
    | none =>
      if replicasPtrEqFreshZero primary.spec.replicas then
        (.error (.primaryScaledToZero cd.name cd.ns), s₁)
      else
        (.ok (), s₁)

/-- `IsCanaryReady` (factory.go lines 154-169): returns (retriable, error). -/
def IsCanaryReady (env : Env) (cd : Canary) (s : St) : (Bool × Option GoErr) × St :=
  match getCloneSet env s cd.ns cd.targetName with
  | (.error e, s₁) =>
    ((true, some (.wrap ("cloneset " ++ cd.targetName ++ "." ++ cd.ns ++ " get query error") e)), s₁)
  | (.ok canary, s₁) =>
    match isCloneSetReady canary cd.progressDeadlineSeconds env.now with
    | (retryable, some e) =>
      ((retryable, some (.wrap ("canary cloneset " ++ cd.targetName ++ "." ++ cd.ns ++ " not ready")
        (.canaryNotReady cd.targetName cd.ns e))), s₁)
    | (_, none) => ((true, none), s₁)

/-- `ScaleToZero` (cloneset_controller.go lines 51-73). -/
def ScaleToZero (env : Env) (cd : Canary) (s : St) : Except GoErr Unit × St :=
  match getCloneSet env s cd.ns cd.targetName with
  | (.error e, s₁) =>
    (.error (.wrap ("cloneset " ++ cd.targetName ++ "." ++ cd.ns ++ " get query error") e), s₁)
  | (.ok cloneset, s₁) =>
    let clonesetCopy := setNodeSelector cloneset
      (some (addScaleDownSelector cloneset.spec.template.spec.nodeSelector))
    match updateCloneSet env s₁ clonesetCopy with
    | (.error e, s₂) =>
      (.error (.wrap ("updating cloneset " ++ clonesetCopy.name ++ "." ++ clonesetCopy.ns ++ " failed") e), s₂)
    | (.ok _, s₂) => (.ok (), s₂)

/-- `ScaleFromZero` (cloneset_controller.go lines 75-92). -/
def ScaleFromZero (env : Env) (cd : Canary) (s : St) : Except GoErr Unit × St :=
  match getCloneSet env s cd.ns cd.targetName with
  | (.error e, s₁) =>
    (.error (.wrap ("cloneset " ++ cd.targetName ++ "." ++ cd.ns ++ " query error") e), s₁)
  | (.ok cloneset, s₁) =>
    let clonesetCopy := setNodeSelector cloneset
      (delScaleDownSelector cloneset.spec.template.spec.nodeSelector)
    match updateCloneSet env s₁ clonesetCopy with
    | (.error e, s₂) =>
      (.error (.wrap ("scaling up cloneset " ++ clonesetCopy.name ++ "." ++ clonesetCopy.ns ++ " failed") e), s₂)
    | (.ok _, s₂) => (.ok (), s₂)

/-- `createPrimaryCloneSet` (cloneset_controller.go lines 221-303).  Note
that a non-NotFound error of the primary-existence Get falls through to
`return nil`, exactly as in the source. -/
def createPrimaryCloneSet (env : Env) (cd : Canary) (s : St) : Except GoErr Unit × St :=
  let targetName := cd.targetName
  let primaryName := targetName ++ "-primary"
  match getCloneSet env s cd.ns targetName with
  | (.error e, s₁) =>
    (.error (.wrap ("cloneset " ++ targetName ++ "." ++ cd.ns ++ " get query error") e), s₁)
  | (.ok canaryCloneset, s₁) =>
    if canaryCloneset.spec.updateStrategyType ≠ "" ∧
        canaryCloneset.spec.updateStrategyType ≠ RecreateCloneSetUpdateStrategyType then
      (.error (.strategyIncompatible targetName cd.ns canaryCloneset.spec.updateStrategyType), s₁)
    else
      let labels := includeLabelsByPrefix canaryCloneset.labels env.includeLabelPrefixes
      match getSelectorLabel env canaryCloneset with
      | .error e => (.error (.wrap "getSelectorLabel failed" e), s₁)
      | .ok (label, labelValue) =>
        let primaryLabelValue := labelValue ++ "-primary"
        match getCloneSet env s₁ cd.ns primaryName with
        | (.error e, s₂) =>
          if e.isNotFound then
            match trackerGetTargetConfigs env with
            | .error e₂ => (.error (.wrap "GetTargetConfigs failed" e₂), s₂)
            | .ok configRefs =>
              match trackerCreatePrimaryConfigs env with
              | .error e₂ => (.error (.wrap "CreatePrimaryConfigs failed" e₂), s₂)
              | .ok _ =>
                match makeAnnotations env.annotationToken canaryCloneset.spec.template.annotations with
                | .error e₂ => (.error (.wrap "makeAnnotations failed" e₂), s₂)
                | .ok annotationsNew =>
                  let primaryCloneset : CloneSet :=
                    { name := primaryName
                      ns := cd.ns
                      labels := makePrimaryLabels labels primaryLabelValue label
                      annotations := canaryCloneset.annotations
                      ownerRefs := [cd.name]
                      generation := 0
                      spec :=
                        { replicas := none
                          minReadySeconds := canaryCloneset.spec.minReadySeconds
                          revisionHistoryLimit := canaryCloneset.spec.revisionHistoryLimit
                          updateStrategyType := canaryCloneset.spec.updateStrategyType
                          selectorMatchLabels := [(label, primaryLabelValue)]
                          template :=
                            { labels := makePrimaryLabels canaryCloneset.spec.template.labels primaryLabelValue label
                              annotations := annotationsNew
                              spec := applyPrimaryConfigs canaryCloneset.spec.template.spec configRefs } }
                      status := { observedGeneration := 0, replicas := 0,
                                  updatedReplicas := 0, availableReplicas := 0 } }
                  match createCloneSet env s₂ primaryCloneset with
                  | (.error e₂, s₃) =>
                    (.error (.wrap ("creating cloneset " ++ primaryName ++ "." ++ cd.ns ++ " failed") e₂), s₃)
                  | (.ok _, s₃) => (.ok (), s₃)
          else
            (.ok (), s₂)
        | (.ok _, s₂) => (.ok (), s₂)

/-- `Initialize` (cloneset_controller.go lines 96-116). -/
def Initialize (env : Env) (cd : Canary) (s : St) : Except GoErr Unit × St :=
  match createPrimaryCloneSet env cd s with
  | (.error e, s₁) => (.error (.wrap "createPrimaryCloneSet failed" e), s₁)
  | (.ok _, s₁) =>
    if cd.phase = "" ∨ cd.phase = "Initializing" then
      let step : Except GoErr Unit × St :=
        if cd.skipAnalysisFlag then (.ok (), s₁) else IsPrimaryReady env cd s₁
      match step with
      | (.error e, s₂) => (.error (.wrap "" e), s₂)
      | (.ok _, s₂) =>
        match ScaleToZero env cd s₂ with
        | (.error e, s₃) => (.error (.wrap "ScaleToZero failed" e), s₃)
        | (.ok _, s₃) => (.ok (), s₃)
    else
      (.ok (), s₁)

/-- `Promote` (cloneset_controller.go lines 119-177). -/
def Promote (env : Env) (cd : Canary) (s : St) : Except GoErr Unit × St :=
  let targetName := cd.targetName
  let primaryName := targetName ++ "-primary"
  match getCloneSet env s cd.ns targetName with
  | (.error e, s₁) =>
    (.error (.wrap ("cloneset " ++ targetName ++ "." ++ cd.ns ++ " get query error") e), s₁)
  | (.ok canary, s₁) =>
    match getSelectorLabel env canary with
    | .error e => (.error (.wrap "getSelectorLabel failed" e), s₁)
    | .ok (label, labelValue) =>
      let primaryLabelValue := labelValue ++ "-primary"
      match getCloneSet env s₁ cd.ns primaryName with
      | (.error e, s₂) =>
        (.error (.wrap ("cloneset " ++ primaryName ++ "." ++ cd.ns ++ " get query error") e), s₂)
      | (.ok primary, s₂) =>
        match trackerGetTargetConfigs env with
        | .error e => (.error (.wrap "GetTargetConfigs failed" e), s₂)
        | .ok configRefs =>
          match trackerCreatePrimaryConfigs env with
          | .error e => (.error (.wrap "CreatePrimaryConfigs failed" e), s₂)
          | .ok _ =>
            let newPodSpec := applyPrimaryConfigs canary.spec.template.spec configRefs
            let newSel := delScaleDownSelector newPodSpec.nodeSelector
            match makeAnnotations env.annotationToken canary.spec.template.annotations with
            | .error e => (.error (.wrap "makeAnnotations failed" e), s₂)
            | .ok annotationsNew =>
              let primaryCopy :=
                { primary with spec :=
                  { primary.spec with
                    minReadySeconds := canary.spec.minReadySeconds
                    revisionHistoryLimit := canary.spec.revisionHistoryLimit
                    updateStrategyType := canary.spec.updateStrategyType
                    template :=
                      { labels := makePrimaryLabels canary.spec.template.labels primaryLabelValue label
                        annotations := annotationsNew
                        spec := { newPodSpec with nodeSelector := newSel } } } }
              match updateCloneSet env s₂ primaryCopy with
              | (.error e, s₃) =>
                (.error (.wrap ("updating cloneset " ++ primaryCopy.name ++ "." ++ primaryCopy.ns ++ " template spec failed") e), s₃)
              | (.ok _, s₃) => (.ok (), s₃)

/-- `HasTargetChanged` (cloneset_controller.go lines 180-198): strips the
scale-to-zero marker, normalizes a nil selector to an empty one, and
compares the structural hash. -/
def HasTargetChanged (env : Env) (cd : Canary) (s : St) : Except GoErr Bool × St :=
  match getCloneSet env s cd.ns cd.targetName with
  | (.error e, s₁) =>
    (.error (.wrap ("cloneset " ++ cd.targetName ++ "." ++ cd.ns ++ " get query error") e), s₁)
  | (.ok canary, s₁) =>
    let stripped := delScaleDownSelector canary.spec.template.spec.nodeSelector
    let normalized := match stripped with
      | none => some []
      | some m => some m
    (.ok (hasSpecChanged cd (setTemplateNodeSelector canary.spec.template normalized)), s₁)

/-- `GetMetadata` (cloneset_controller.go lines 201-219). -/
def GetMetadata (env : Env) (cd : Canary) (s : St) :
    Except GoErr (String × String × List (String × Int)) × St :=
  match getCloneSet env s cd.ns cd.targetName with
  | (.error e, s₁) =>
    (.error (.wrap ("cloneset " ++ cd.targetName ++ "." ++ cd.ns ++ " get query error") e), s₁)
  | (.ok canaryCloneset, s₁) =>
    match getSelectorLabel env canaryCloneset with
    | .error e => (.error (.wrap "getSelectorLabel failed" e), s₁)
    | .ok (label, labelValue) =>
      let ports := if cd.portDiscovery then getPorts canaryCloneset.spec.template.spec.containers else []
      (.ok (label, labelValue, ports), s₁)

/-- `HaveDependenciesChanged` delegates to `ConfigTracker.HasConfigChanged`. -/
def HaveDependenciesChanged (env : Env) (_cd : Canary) (s : St) : Except GoErr Bool × St :=
  (env.hasConfigChangedRes, s)

/-- `Finalize` (cloneset_controller.go lines 324-329). -/
def Finalize (env : Env) (cd : Canary) (s : St) : Except GoErr Unit × St :=
  match ScaleFromZero env cd s with
  | (.error e, s₁) => (.error (.wrap "ScaleFromZero failed" e), s₁)
  | (.ok _, s₁) => (.ok (), s₁)

deriving instance DecidableEq for Except

/-! ## Concrete fixtures for closed theorems -/

/-- Fault-free injection for every API call. -/
def noFail : String → String → Option String :=
  fun _ _ => none

/-- A fault-free environment with candidate selector-label list ["app"]. -/
def happyEnv : Env :=
  { labels := ["app"]
    includeLabelPrefixes := []
    getFail := noFail
    updateFail := noFail
    createFail := noFail
    targetConfigs := .ok []
    createConfigsFail := none
    hasConfigChangedRes := .ok false
    annotationToken := "tok"
    now := 0 }

/-- A healthy target CloneSet named demo in namespace test. -/
def demoTarget : CloneSet :=
  { name := "demo"
    ns := "test"
    labels := [("app", "demo")]
    annotations := []
    ownerRefs := []
    generation := 0
    spec :=
      { replicas := some 1
        minReadySeconds := 0
        revisionHistoryLimit := none
        updateStrategyType := ""
        selectorMatchLabels := [("app", "demo")]
        template :=
          { labels := [("app", "demo")]
            annotations := []
            spec := { nodeSelector := none, containers := [("http", 8080)], configRefs := [] } } }
    status := { observedGeneration := 0, replicas := 1, updatedReplicas := 1, availableReplicas := 1 } }

/-- A primary CloneSet whose declared replica count is zero and whose status
passes every replica check of the readiness classifier. -/
def demoPrimaryZero : CloneSet :=
  { name := "demo-primary"
    ns := "test"
    labels := [("app", "demo-primary")]
    annotations := []
    ownerRefs := []
    generation := 0
    spec :=
      { replicas := some 0
        minReadySeconds := 0
        revisionHistoryLimit := none
        updateStrategyType := ""
        selectorMatchLabels := [("app", "demo-primary")]
        template :=
          { labels := [("app", "demo-primary")]
            annotations := []
            spec := { nodeSelector := none, containers := [("http", 8080)], configRefs := [] } } }
    status := { observedGeneration := 0, replicas := 0, updatedReplicas := 0, availableReplicas := 0 } }

/-- The canary descriptor used in the closed scenarios. -/
def demoCanary : Canary :=
  { name := "demo-canary"
    ns := "test"
    targetName := "demo"
    phase := ""
    skipAnalysisFlag := false
    progressDeadlineSeconds := 60
    portDiscovery := false
    lastAppliedTemplate := none }

/-! ## Helper lemmas about the readiness classifier -/

theorem cloneSetReplicaChecksTail_fst (cs : CloneSet) :
    (cloneSetReplicaChecksTail cs true).1 = true := by
  unfold cloneSetReplicaChecksTail
  split
  · rfl
  · split
    · rfl
    · rfl

theorem cloneSetReplicaChecks_fst (cs : CloneSet) :
    (cloneSetReplicaChecks cs true).1 = true := by
  unfold cloneSetReplicaChecks
  split
  · split
    · rfl
    · exact cloneSetReplicaChecksTail_fst cs
  · exact cloneSetReplicaChecksTail_fst cs

theorem cloneSetReplicaChecksTail_snd (cs : CloneSet) (r : Bool) (n : String) :
    (cloneSetReplicaChecksTail cs r).2 ≠ some (.progressDeadlineExceeded n) := by
  unfold cloneSetReplicaChecksTail
  split
  · simp
  · split
    · simp
    · simp

theorem cloneSetReplicaChecks_snd (cs : CloneSet) (r : Bool) (n : String) :
    (cloneSetReplicaChecks cs r).2 ≠ some (.progressDeadlineExceeded n) := by
  unfold cloneSetReplicaChecks
  split
  · split
    · simp
    · exact cloneSetReplicaChecksTail_snd cs r n
  · exact cloneSetReplicaChecksTail_snd cs r n

/-- Claim C4: for the CloneSet variant the condition lookup always returns
no condition, so `isCloneSetReady` never reaches the deadline-exceeded fatal
verdict and never returns retriable = false, for every CloneSet input and
every deadline (and clock). -/
theorem c4_deadline_rules_unreachable (cs : CloneSet) (deadline now : Int) :
    getCloneSetCondition = none
    ∧ (isCloneSetReady cs deadline now).1 = true
    ∧ ∀ n, (isCloneSetReady cs deadline now).2 ≠ some (.progressDeadlineExceeded n) := by
  refine ⟨rfl, ?_, ?_⟩
  · unfold isCloneSetReady
    split
    · exact cloneSetReplicaChecks_fst cs
    · rfl
  · intro n
    unfold isCloneSetReady
    split
    · exact cloneSetReplicaChecks_snd cs true n
    · simp

/-- Claim C1 (code-bug evidence): a primary CloneSet whose declared replica
count `Spec.Replicas` is exactly zero and which passes the readiness
classifier makes `IsPrimaryReady` return nil, because
`primary.Spec.Replicas == int32p(0)` is a pointer comparison against a fresh
allocation and can never be true; the spec requires an error here. -/
theorem c1_zero_replica_primary_passes :
    (clusterGet [(("test", "demo-primary"), demoPrimaryZero)] ("test", "demo-primary")).map
        (fun p => p.spec.replicas) = some (some 0)
    ∧ (isCloneSetReady demoPrimaryZero demoCanary.progressDeadlineSeconds happyEnv.now).2 = none
    ∧ (IsPrimaryReady happyEnv demoCanary
        ⟨[(("test", "demo-primary"), demoPrimaryZero)], []⟩).1 = .ok () := by
  refine ⟨by decide, by decide, by decide⟩

/-! ## Selector resolution (claim C3) -/

theorem findSelectorLabel_none (ls : List String) (m : List (String × String))
    (h : ∀ l ∈ ls, mapGet m l = none) : findSelectorLabel ls m = none := by
  induction ls with
  | nil => rfl
  | cons l rest ih =>
    have hl : mapGet m l = none := h l (List.mem_cons_self l rest)
    simp only [findSelectorLabel, hl]
    exact ih (fun x hx => h x (List.mem_cons_of_mem l hx))

theorem findSelectorLabel_unique (ls : List String) (m : List (String × String)) (k v : String)
    (hk : k ∈ ls) (hv : mapGet m k = some v)
    (huniq : ∀ l ∈ ls, l ≠ k → mapGet m l = none) :
    findSelectorLabel ls m = some (k, v) := by
  induction ls with
  | nil => cases hk
  | cons l rest ih =>
    by_cases hlk : l = k
    · subst hlk
      simp only [findSelectorLabel, hv]
    · have hl : mapGet m l = none := huniq l (List.mem_cons_self l rest) hlk
      simp only [findSelectorLabel, hl]
      have hk' : k ∈ rest := by
        rcases List.mem_cons.mp hk with h | h
        · exact absurd h.symm hlk
        · exact h
      exact ih hk' (fun x hx => huniq x (List.mem_cons_of_mem l hx))

/-- An environment with two candidate selector-label keys. -/
def twoKeyEnv : Env :=
  { happyEnv with labels := ["app", "name"] }

/-- A target whose selector match-labels contain both candidate keys. -/
def twoKeyCloneSet : CloneSet :=
  { demoTarget with spec :=
    { demoTarget.spec with selectorMatchLabels := [("app", "demo"), ("name", "demo")] } }

/-- Claim C3 (counterexample): with candidate list ["app", "name"] and a
target carrying both keys (two candidates present), selector resolution does
not fail with a configuration error: it returns the first candidate. -/
theorem c3_two_candidate_keys_no_error :
    (twoKeyCloneSet.spec.selectorMatchLabels.filter
        (fun kv => twoKeyEnv.labels.contains kv.1)).length = 2
    ∧ getSelectorLabel twoKeyEnv twoKeyCloneSet = .ok ("app", "demo") := by
  constructor
  · decide
  · decide

theorem findSelectorLabel_eq_none (ls : List String) (m : List (String × String))
    (h : findSelectorLabel ls m = none) : ∀ l ∈ ls, mapGet m l = none := by
  induction ls with
  | nil => simp
  | cons l rest ih =>
    intro x hx
    cases hl : mapGet m l with
    | some v => simp [findSelectorLabel, hl] at h
    | none =>
      simp only [findSelectorLabel, hl] at h
      rcases List.mem_cons.mp hx with hxl | hx'
      · rw [hxl]
        exact hl
      · exact ih h x hx'

theorem findSelectorLabel_first (pre : List String) (k : String) (rest : List String)
    (m : List (String × String)) (v : String)
    (hpre : ∀ l ∈ pre, mapGet m l = none)
    (hk : mapGet m k = some v) :
    findSelectorLabel (pre ++ k :: rest) m = some (k, v) := by
  induction pre with
  | nil => simp only [List.nil_append, findSelectorLabel, hk]
  | cons l pre' ih =>
    have hl : mapGet m l = none := hpre l (List.mem_cons_self l pre')
    simp only [List.cons_append, findSelectorLabel, hl]
    exact ih (fun x hx => hpre x (List.mem_cons_of_mem l hx))

/-- Claim C3 (amended): scanning the candidate keys in priority order, the
first present candidate determines label and value, whatever comes before or
after it (so more than one present candidate is not an error: the first in
L's order wins); exactly one present candidate is returned with its value;
and resolution fails with the configuration error exactly when (if and only
if) no candidate key is present. -/
theorem c3_selector_resolution (env : Env) (cs : CloneSet) :
    (getSelectorLabel env cs = .error (.selectorLabelMissing cs.name cs.ns env.labels)
      ↔ ∀ l ∈ env.labels, mapGet cs.spec.selectorMatchLabels l = none)
    ∧ (∀ k v, k ∈ env.labels → mapGet cs.spec.selectorMatchLabels k = some v →
        (∀ l ∈ env.labels, l ≠ k → mapGet cs.spec.selectorMatchLabels l = none) →
        getSelectorLabel env cs = .ok (k, v))
    ∧ (∀ pre k rest v, env.labels = pre ++ k :: rest →
        (∀ l ∈ pre, mapGet cs.spec.selectorMatchLabels l = none) →
        mapGet cs.spec.selectorMatchLabels k = some v →
        getSelectorLabel env cs = .ok (k, v)) := by
  refine ⟨⟨?_, ?_⟩, ?_, ?_⟩
  · intro h
    cases hf : findSelectorLabel env.labels cs.spec.selectorMatchLabels with
    | some lv =>
      unfold getSelectorLabel at h
      rw [hf] at h
      cases h
    | none => exact findSelectorLabel_eq_none env.labels cs.spec.selectorMatchLabels hf
  · intro h
    unfold getSelectorLabel
    rw [findSelectorLabel_none env.labels cs.spec.selectorMatchLabels h]
  · intro k v hk hv huniq
    unfold getSelectorLabel
    rw [findSelectorLabel_unique env.labels cs.spec.selectorMatchLabels k v hk hv huniq]
  · intro pre k rest v hlabels hpre hv
    unfold getSelectorLabel
    rw [hlabels, findSelectorLabel_first pre k rest cs.spec.selectorMatchLabels v hpre hv]

/-- Witness for C3: concrete runs through every amended conjunct, including
the first-present-wins case with the first candidate absent and the two
later candidates both present, and both directions of the failure iff. -/
theorem c3_selector_resolution_witness :
    getSelectorLabel { happyEnv with labels := ["team"] } demoTarget
      = .error (.selectorLabelMissing "demo" "test" ["team"])
    ∧ mapGet demoTarget.spec.selectorMatchLabels "team" = none
    ∧ getSelectorLabel happyEnv demoTarget = .ok ("app", "demo")
    ∧ getSelectorLabel { happyEnv with labels := ["team", "app", "name"] } twoKeyCloneSet
      = .ok ("app", "demo") := by
  refine ⟨?_, ?_, ?_, ?_⟩
  · exact (c3_selector_resolution { happyEnv with labels := ["team"] } demoTarget).1.mpr
      (by decide)
  · exact (c3_selector_resolution { happyEnv with labels := ["team"] } demoTarget).1.mp
      (by decide) "team" (by decide)
  · exact (c3_selector_resolution happyEnv demoTarget).2.1 "app" "demo"
      (by decide) (by decide) (by decide)
  · exact (c3_selector_resolution { happyEnv with labels := ["team", "app", "name"] }
      twoKeyCloneSet).2.2 ["team"] "app" ["name"] "demo" rfl (by decide) (by decide)

/-! ## Update-strategy validation (claim C2) -/

/-- A target declaring the ReCreate (default rolling) CloneSet strategy. -/
def recreateTarget : CloneSet :=
  { demoTarget with spec := { demoTarget.spec with updateStrategyType := "ReCreate" } }

/-- A target declaring the InPlaceIfPossible strategy. -/
def inPlaceTarget : CloneSet :=
  { demoTarget with spec := { demoTarget.spec with updateStrategyType := "InPlaceIfPossible" } }

/-- Claim C2 (counterexample): a target declaring the Recreate strategy type
is accepted by the validation and the primary is created, contradicting the
claim that a recreate strategy fails fast without creating anything (the
validation in fact requires this type or an empty one). -/
theorem c2_recreate_strategy_accepted :
    recreateTarget.spec.updateStrategyType = RecreateCloneSetUpdateStrategyType
    ∧ (createPrimaryCloneSet happyEnv demoCanary ⟨[(("test", "demo"), recreateTarget)], []⟩).1 = .ok ()
    ∧ ∃ c ∈ (createPrimaryCloneSet happyEnv demoCanary ⟨[(("test", "demo"), recreateTarget)], []⟩).2.log,
        c.kind = .create ∧ c.res = .ok := by
  refine ⟨rfl, by decide, by decide⟩

/-- Claim C2 (amended): the validation accepts exactly the empty and the
ReCreate update-strategy types; any other declared type fails fast with a
configuration error before anything is created (the state is left unchanged
except for the target read in the log); for an accepted type the validation
never produces the strategy error, and under fault-free conditions with the
primary absent the creation proceeds and issues the create request. -/
theorem c2_strategy_validation (env : Env) (cd : Canary) (s : St) (t : CloneSet)
    (hget : env.getFail cd.ns cd.targetName = none)
    (hc : clusterGet s.cluster (cd.ns, cd.targetName) = some t) :
    (t.spec.updateStrategyType ≠ "" → t.spec.updateStrategyType ≠ RecreateCloneSetUpdateStrategyType →
      createPrimaryCloneSet env cd s =
        (.error (.strategyIncompatible cd.targetName cd.ns t.spec.updateStrategyType),
         logCall s ⟨.get, cd.ns, cd.targetName, .ok⟩))
    ∧ ((t.spec.updateStrategyType = "" ∨ t.spec.updateStrategyType = RecreateCloneSetUpdateStrategyType) →
        ∀ n, (createPrimaryCloneSet env cd s).1 ≠ .error (.strategyIncompatible cd.targetName cd.ns n))
    ∧ ((t.spec.updateStrategyType = "" ∨ t.spec.updateStrategyType = RecreateCloneSetUpdateStrategyType) →
        ∀ l v refs, findSelectorLabel env.labels t.spec.selectorMatchLabels = some (l, v) →
        env.getFail cd.ns (cd.targetName ++ "-primary") = none →
        env.createFail cd.ns (cd.targetName ++ "-primary") = none →
        env.targetConfigs = .ok refs →
        env.createConfigsFail = none →
        clusterGet s.cluster (cd.ns, cd.targetName ++ "-primary") = none →
        (createPrimaryCloneSet env cd s).1 = .ok ()
        ∧ ∃ c ∈ (createPrimaryCloneSet env cd s).2.log, c.kind = .create ∧ c.res = .ok) := by
  have hbase : (getCloneSet env s cd.ns cd.targetName) =
      (.ok t, logCall s ⟨.get, cd.ns, cd.targetName, .ok⟩) := by
    unfold getCloneSet
    rw [hget, hc]
  refine ⟨?_, ?_, ?_⟩
  · intro h1 h2
    simp only [createPrimaryCloneSet, hbase]
    rw [if_pos ⟨h1, h2⟩]
  · intro hgood n
    have hcond : ¬ (t.spec.updateStrategyType ≠ "" ∧
        t.spec.updateStrategyType ≠ RecreateCloneSetUpdateStrategyType) := by
      rcases hgood with h | h
      · simp [h]
      · simp [h]
    simp only [createPrimaryCloneSet, hbase]
    rw [if_neg hcond]
    rcases hsel : getSelectorLabel env t with e | ⟨l, v⟩
    · simp [hsel]
    · simp only [hsel]
      rcases hpg : getCloneSet env (logCall s ⟨.get, cd.ns, cd.targetName, .ok⟩) cd.ns
          (cd.targetName ++ "-primary") with ⟨res, s₂⟩
      cases res with
      | error e =>
        by_cases hnf : e.isNotFound
        · rcases htc : trackerGetTargetConfigs env with e₂ | refs
          · simp [hpg, hnf, htc]
          · rcases hcc : trackerCreatePrimaryConfigs env with e₂ | u
            · simp [hpg, hnf, htc, hcc]
            · simp only [hpg, hnf, htc, hcc, makeAnnotations, if_true]
              split
              · simp
              · simp
        · simp [hpg, hnf]
      | ok p => simp [hpg]
  · intro hgood l v refs hsel hpget hpcreate htc hcc hpabsent
    have hcond : ¬ (t.spec.updateStrategyType ≠ "" ∧
        t.spec.updateStrategyType ≠ RecreateCloneSetUpdateStrategyType) := by
      rcases hgood with h | h
      · simp [h]
      · simp [h]
    have hsel' : getSelectorLabel env t = .ok (l, v) := by
      unfold getSelectorLabel
      rw [hsel]
    have hpg : getCloneSet env (logCall s ⟨.get, cd.ns, cd.targetName, .ok⟩) cd.ns
        (cd.targetName ++ "-primary") =
        (.error (.notFound cd.ns (cd.targetName ++ "-primary")),
         logCall (logCall s ⟨.get, cd.ns, cd.targetName, .ok⟩)
           ⟨.get, cd.ns, cd.targetName ++ "-primary", .notFound⟩) := by
      unfold getCloneSet
      rw [hpget]
      simp only [logCall]
      rw [hpabsent]
    have hcr : ∀ (cs : CloneSet), cs.ns = cd.ns → cs.name = cd.targetName ++ "-primary" →
        ∀ (s' : St), s'.cluster = s.cluster →
        createCloneSet env s' cs =
          (.ok cs, { cluster := clusterAdd s'.cluster (cs.ns, cs.name) cs,
                     log := s'.log ++ [⟨.create, cs.ns, cs.name, .ok⟩] }) := by
      intro cs hns hname s' hcl
      unfold createCloneSet
      rw [hns, hname, hpcreate, hcl, hpabsent]
    simp only [createPrimaryCloneSet, hbase]
    rw [if_neg hcond]
    simp only [hsel', hpg, GoErr.isNotFound, if_true]
    unfold trackerGetTargetConfigs trackerCreatePrimaryConfigs
    rw [htc]
    simp only [hcc]
    simp only [makeAnnotations]
    rw [hcr _ rfl rfl _ (by simp [logCall])]
    constructor
    · rfl
    · refine ⟨⟨.create, cd.ns, cd.targetName ++ "-primary", .ok⟩, ?_, rfl, rfl⟩
      simp [logCall]

/-- Witness for C2: a concrete rejected strategy, and a concrete accepted
one that proceeds to the create request. -/
theorem c2_strategy_validation_witness :
    createPrimaryCloneSet happyEnv demoCanary ⟨[(("test", "demo"), inPlaceTarget)], []⟩ =
      (.error (.strategyIncompatible "demo" "test" "InPlaceIfPossible"),
       logCall ⟨[(("test", "demo"), inPlaceTarget)], []⟩ ⟨.get, "test", "demo", .ok⟩)
    ∧ (createPrimaryCloneSet happyEnv demoCanary ⟨[(("test", "demo"), demoTarget)], []⟩).1
        ≠ .error (.strategyIncompatible "demo" "test" "x")
    ∧ (createPrimaryCloneSet happyEnv demoCanary ⟨[(("test", "demo"), demoTarget)], []⟩).1 = .ok ()
    ∧ ∃ c ∈ (createPrimaryCloneSet happyEnv demoCanary ⟨[(("test", "demo"), demoTarget)], []⟩).2.log,
        c.kind = .create ∧ c.res = .ok := by
  refine ⟨?_, ?_, ?_, ?_⟩
  · exact (c2_strategy_validation happyEnv demoCanary ⟨[(("test", "demo"), inPlaceTarget)], []⟩
      inPlaceTarget (by decide) (by decide)).1 (by decide) (by decide)
  · exact (c2_strategy_validation happyEnv demoCanary ⟨[(("test", "demo"), demoTarget)], []⟩
      demoTarget (by decide) (by decide)).2.1 (by decide) "x"
  · exact ((c2_strategy_validation happyEnv demoCanary ⟨[(("test", "demo"), demoTarget)], []⟩
      demoTarget (by decide) (by decide)).2.2 (by decide) "app" "demo" [] (by decide) (by decide)
      (by decide) (by decide) (by decide) (by decide)).1
  · exact ((c2_strategy_validation happyEnv demoCanary ⟨[(("test", "demo"), demoTarget)], []⟩
      demoTarget (by decide) (by decide)).2.2 (by decide) "app" "demo" [] (by decide) (by decide)
      (by decide) (by decide) (by decide) (by decide)).2

/-! ## Scale-to-zero / scale-from-zero (claim C7) -/

@[simp] theorem setNodeSelector_sel (cs : CloneSet) (sel : Option (List (String × String))) :
    (setNodeSelector cs sel).spec.template.spec.nodeSelector = sel := rfl

@[simp] theorem setNodeSelector_ns (cs : CloneSet) (sel : Option (List (String × String))) :
    (setNodeSelector cs sel).ns = cs.ns := rfl

@[simp] theorem setNodeSelector_name (cs : CloneSet) (sel : Option (List (String × String))) :
    (setNodeSelector cs sel).name = cs.name := rfl

theorem setNodeSelector_setNodeSelector (cs : CloneSet)
    (a b : Option (List (String × String))) :
    setNodeSelector (setNodeSelector cs a) b = setNodeSelector cs b := rfl

theorem addScaleDownSelector_def (sel : Option (List (String × String))) :
    addScaleDownSelector sel = mapSet (sel.getD []) "flagger.app/scale-to-zero" "true" := rfl

theorem delScaleDownSelector_def (sel : Option (List (String × String))) :
    delScaleDownSelector sel = sel.map (fun m => mapDel m "flagger.app/scale-to-zero") := rfl

theorem scaleToZero_spec (env : Env) (cd : Canary) (s : St) (t : CloneSet)
    (hget : env.getFail cd.ns cd.targetName = none)
    (hupd : env.updateFail cd.ns cd.targetName = none)
    (hns : t.ns = cd.ns) (hname : t.name = cd.targetName)
    (hc : clusterGet s.cluster (cd.ns, cd.targetName) = some t) :
    ScaleToZero env cd s =
      (.ok (), { cluster := clusterSet s.cluster (cd.ns, cd.targetName)
                   (setNodeSelector t (some (addScaleDownSelector t.spec.template.spec.nodeSelector))),
                 log := s.log ++ [⟨.get, cd.ns, cd.targetName, .ok⟩,
                                  ⟨.update, cd.ns, cd.targetName, .ok⟩] }) := by
  have hbase : getCloneSet env s cd.ns cd.targetName =
      (.ok t, logCall s ⟨.get, cd.ns, cd.targetName, .ok⟩) := by
    unfold getCloneSet
    rw [hget, hc]
  simp only [ScaleToZero, hbase]
  unfold updateCloneSet
  simp only [setNodeSelector_ns, setNodeSelector_name, hns, hname, logCall]
  rw [hupd, hc]
  simp [List.append_assoc]

theorem scaleFromZero_spec (env : Env) (cd : Canary) (s : St) (t : CloneSet)
    (hget : env.getFail cd.ns cd.targetName = none)
    (hupd : env.updateFail cd.ns cd.targetName = none)
    (hns : t.ns = cd.ns) (hname : t.name = cd.targetName)
    (hc : clusterGet s.cluster (cd.ns, cd.targetName) = some t) :
    ScaleFromZero env cd s =
      (.ok (), { cluster := clusterSet s.cluster (cd.ns, cd.targetName)
                   (setNodeSelector t (delScaleDownSelector t.spec.template.spec.nodeSelector)),
                 log := s.log ++ [⟨.get, cd.ns, cd.targetName, .ok⟩,
                                  ⟨.update, cd.ns, cd.targetName, .ok⟩] }) := by
  have hbase : getCloneSet env s cd.ns cd.targetName =
      (.ok t, logCall s ⟨.get, cd.ns, cd.targetName, .ok⟩) := by
    unfold getCloneSet
    rw [hget, hc]
  simp only [ScaleFromZero, hbase]
  unfold updateCloneSet
  simp only [setNodeSelector_ns, setNodeSelector_name, hns, hname, logCall]
  rw [hupd, hc]
  simp [List.append_assoc]

/-- Claim C7 (counterexample): when the target's node selector already
contains the scale-to-zero marker entry, the ScaleToZero/ScaleFromZero round
trip does not restore the pre-existing selector map, not even up to
nil/empty-map equivalence: the marker entry is gone. -/
theorem c7_marker_preexisting_not_restored :
    ((clusterGet (ScaleFromZero happyEnv demoCanary
        (ScaleToZero happyEnv demoCanary
          ⟨[(("test", "demo"),
             setNodeSelector demoTarget (some [("flagger.app/scale-to-zero", "true")]))], []⟩).2).2.cluster
        ("test", "demo")).map (fun t => t.spec.template.spec.nodeSelector)) = some (some [])
    ∧ ((some [("flagger.app/scale-to-zero", "true")] :
        Option (List (String × String))).getD [] ≠
       (some ([] : List (String × String))).getD []) := by
  constructor
  · decide
  · decide

/-- Claim C7 (amended): `ScaleToZero` is idempotent on the cluster state;
`ScaleFromZero` after `ScaleToZero` leaves the target's node selector equal
to the pre-existing map with the marker key removed (so the pre-existing map
is restored exactly, up to nil/empty equivalence, whenever it did not
already carry the marker), and every entry other than the marker is
preserved at every stage. -/
theorem c7_scale_roundtrip (env : Env) (cd : Canary) (s : St) (t : CloneSet)
    (hget : env.getFail cd.ns cd.targetName = none)
    (hupd : env.updateFail cd.ns cd.targetName = none)
    (hns : t.ns = cd.ns) (hname : t.name = cd.targetName)
    (hc : clusterGet s.cluster (cd.ns, cd.targetName) = some t) :
    ((ScaleToZero env cd (ScaleToZero env cd s).2).2.cluster = (ScaleToZero env cd s).2.cluster)
    ∧ (∃ t₁, clusterGet (ScaleToZero env cd s).2.cluster (cd.ns, cd.targetName) = some t₁
        ∧ ∀ k, k ≠ "flagger.app/scale-to-zero" →
            mapGet (t₁.spec.template.spec.nodeSelector.getD []) k
              = mapGet (t.spec.template.spec.nodeSelector.getD []) k)
    ∧ (∃ t', clusterGet (ScaleFromZero env cd (ScaleToZero env cd s).2).2.cluster
          (cd.ns, cd.targetName) = some t'
        ∧ t'.spec.template.spec.nodeSelector
            = some (mapDel (t.spec.template.spec.nodeSelector.getD []) "flagger.app/scale-to-zero")
        ∧ (mapGet (t.spec.template.spec.nodeSelector.getD []) "flagger.app/scale-to-zero" = none →
            t'.spec.template.spec.nodeSelector = some (t.spec.template.spec.nodeSelector.getD []))
        ∧ (∀ k, k ≠ "flagger.app/scale-to-zero" →
            mapGet (t'.spec.template.spec.nodeSelector.getD []) k
              = mapGet (t.spec.template.spec.nodeSelector.getD []) k)) := by
  have h1 := scaleToZero_spec env cd s t hget hupd hns hname hc
  set t₁ := setNodeSelector t (some (addScaleDownSelector t.spec.template.spec.nodeSelector)) with ht₁
  have hc₁ : clusterGet (ScaleToZero env cd s).2.cluster (cd.ns, cd.targetName) = some t₁ := by
    rw [h1]
    exact clusterGet_clusterSet_self s.cluster (cd.ns, cd.targetName) t₁ t hc
  have hns₁ : t₁.ns = cd.ns := by rw [ht₁, setNodeSelector_ns, hns]
  have hname₁ : t₁.name = cd.targetName := by rw [ht₁, setNodeSelector_name, hname]
  have h2 := scaleToZero_spec env cd (ScaleToZero env cd s).2 t₁ hget hupd hns₁ hname₁ hc₁
  have h3 := scaleFromZero_spec env cd (ScaleToZero env cd s).2 t₁ hget hupd hns₁ hname₁ hc₁
  refine ⟨?_, ?_, ?_⟩
  · rw [h2]
    have : setNodeSelector t₁ (some (addScaleDownSelector t₁.spec.template.spec.nodeSelector)) = t₁ := by
      rw [ht₁]
      rw [setNodeSelector_setNodeSelector]
      simp only [addScaleDownSelector_def, setNodeSelector_sel, Option.getD_some]
      rw [mapSet_mapSet]
    rw [this, h1]
    simp only [clusterSet_clusterSet]
  · refine ⟨t₁, hc₁, ?_⟩
    intro k hk
    rw [ht₁]
    simp only [setNodeSelector_sel, Option.getD_some, addScaleDownSelector_def]
    exact mapGet_mapSet_other _ _ _ _ hk
  · have hsel' : setNodeSelector t₁ (delScaleDownSelector t₁.spec.template.spec.nodeSelector)
        = setNodeSelector t (some (mapDel (t.spec.template.spec.nodeSelector.getD [])
            "flagger.app/scale-to-zero")) := by
      rw [ht₁, setNodeSelector_setNodeSelector]
      simp [setNodeSelector_sel, delScaleDownSelector_def, addScaleDownSelector_def, mapDel_mapSet]
    refine ⟨setNodeSelector t (some (mapDel (t.spec.template.spec.nodeSelector.getD [])
        "flagger.app/scale-to-zero")), ?_, by simp, ?_, ?_⟩
    · rw [h3]
      rw [← hsel']
      exact clusterGet_clusterSet_self _ _ _ t₁ hc₁
    · intro hnone
      simp only [setNodeSelector_sel, Option.some.injEq]
      exact mapDel_of_mapGet_none _ _ hnone
    · intro k hk
      simp only [setNodeSelector_sel, Option.getD_some]
      exact mapGet_mapDel_other _ _ _ hk

/-- Witness for C7: a concrete fault-free round trip on the demo target. -/
theorem c7_scale_roundtrip_witness :
    ((ScaleToZero happyEnv demoCanary
        (ScaleToZero happyEnv demoCanary ⟨[(("test", "demo"), demoTarget)], []⟩).2).2.cluster
      = (ScaleToZero happyEnv demoCanary ⟨[(("test", "demo"), demoTarget)], []⟩).2.cluster)
    ∧ (∃ t', clusterGet (ScaleFromZero happyEnv demoCanary
          (ScaleToZero happyEnv demoCanary ⟨[(("test", "demo"), demoTarget)], []⟩).2).2.cluster
          ("test", "demo") = some t'
        ∧ t'.spec.template.spec.nodeSelector
            = some (mapDel (demoTarget.spec.template.spec.nodeSelector.getD [])
                "flagger.app/scale-to-zero")) := by
  have h := c7_scale_roundtrip happyEnv demoCanary ⟨[(("test", "demo"), demoTarget)], []⟩
    demoTarget (by decide) (by decide) (by decide) (by decide) (by decide)
  refine ⟨h.1, ?_⟩
  obtain ⟨t', ht1, ht2, _, _⟩ := h.2.2
  exact ⟨t', ht1, ht2⟩

/-! ## Drift detection (claim C8) -/

@[simp] theorem setTemplateNodeSelector_sel (t : PodTemplateSpec)
    (sel : Option (List (String × String))) :
    (setTemplateNodeSelector t sel).spec.nodeSelector = sel := rfl

theorem setTemplateNodeSelector_setTemplateNodeSelector (t : PodTemplateSpec)
    (a b : Option (List (String × String))) :
    setTemplateNodeSelector (setTemplateNodeSelector t a) b = setTemplateNodeSelector t b := rfl

theorem setNodeSelector_template (cs : CloneSet) (sel : Option (List (String × String))) :
    (setNodeSelector cs sel).spec.template = setTemplateNodeSelector cs.spec.template sel := rfl

/-- The normalization `HasTargetChanged` applies before hashing: strip the
scale-to-zero marker and turn a nil selector into an empty one. -/
def normalizeTemplate (t : PodTemplateSpec) : PodTemplateSpec :=
  setTemplateNodeSelector t
    (some (mapDel (t.spec.nodeSelector.getD []) "flagger.app/scale-to-zero"))

theorem hasTargetChanged_spec (env : Env) (cd : Canary) (s : St) (t : CloneSet)
    (hget : env.getFail cd.ns cd.targetName = none)
    (hc : clusterGet s.cluster (cd.ns, cd.targetName) = some t) :
    HasTargetChanged env cd s =
      (.ok (hasSpecChanged cd (normalizeTemplate t.spec.template)),
       logCall s ⟨.get, cd.ns, cd.targetName, .ok⟩) := by
  have hbase : getCloneSet env s cd.ns cd.targetName =
      (.ok t, logCall s ⟨.get, cd.ns, cd.targetName, .ok⟩) := by
    unfold getCloneSet
    rw [hget, hc]
  simp only [HasTargetChanged, hbase]
  cases hsel : t.spec.template.spec.nodeSelector with
  | none =>
    simp [hsel, delScaleDownSelector_def, normalizeTemplate, setTemplateNodeSelector]
  | some m =>
    simp [hsel, delScaleDownSelector_def, normalizeTemplate, setTemplateNodeSelector]

/-- Claim C8: drift detection is insensitive to the scale-to-zero marker
round trip (comparing against the previously recorded hash of the target's
own normalized template yields false after ScaleToZero; ScaleFromZero) and
to nil-versus-empty node-selector maps (both normalize to the same hash
input, so `HasTargetChanged` answers identically). -/
theorem c8_drift_insensitive (env : Env) (cd : Canary) (s : St) (t : CloneSet)
    (hget : env.getFail cd.ns cd.targetName = none)
    (hupd : env.updateFail cd.ns cd.targetName = none)
    (hns : t.ns = cd.ns) (hname : t.name = cd.targetName)
    (hc : clusterGet s.cluster (cd.ns, cd.targetName) = some t)
    (hrec : cd.lastAppliedTemplate = some (normalizeTemplate t.spec.template)) :
    (HasTargetChanged env cd
        (ScaleFromZero env cd (ScaleToZero env cd s).2).2).1 = .ok false
    ∧ (∀ (s₁ s₂ : St) (t' : CloneSet),
        clusterGet s₁.cluster (cd.ns, cd.targetName) = some (setNodeSelector t' none) →
        clusterGet s₂.cluster (cd.ns, cd.targetName) = some (setNodeSelector t' (some [])) →
        (HasTargetChanged env cd s₁).1 = (HasTargetChanged env cd s₂).1) := by
  constructor
  · have h1 := scaleToZero_spec env cd s t hget hupd hns hname hc
    set t₁ := setNodeSelector t (some (addScaleDownSelector t.spec.template.spec.nodeSelector)) with ht₁
    have hc₁ : clusterGet (ScaleToZero env cd s).2.cluster (cd.ns, cd.targetName) = some t₁ := by
      rw [h1]
      exact clusterGet_clusterSet_self s.cluster (cd.ns, cd.targetName) t₁ t hc
    have hns₁ : t₁.ns = cd.ns := by rw [ht₁, setNodeSelector_ns, hns]
    have hname₁ : t₁.name = cd.targetName := by rw [ht₁, setNodeSelector_name, hname]
    have h3 := scaleFromZero_spec env cd (ScaleToZero env cd s).2 t₁ hget hupd hns₁ hname₁ hc₁
    set t₂ := setNodeSelector t₁ (delScaleDownSelector t₁.spec.template.spec.nodeSelector) with ht₂
    have hc₂ : clusterGet (ScaleFromZero env cd (ScaleToZero env cd s).2).2.cluster
        (cd.ns, cd.targetName) = some t₂ := by
      rw [h3]
      exact clusterGet_clusterSet_self _ _ _ t₁ hc₁
    rw [hasTargetChanged_spec env cd _ t₂ hget hc₂]
    have hnorm : normalizeTemplate t₂.spec.template = normalizeTemplate t.spec.template := by
      rw [ht₂, ht₁]
      rw [setNodeSelector_setNodeSelector, setNodeSelector_template]
      simp only [setNodeSelector_sel, delScaleDownSelector_def, addScaleDownSelector_def]
      simp only [Option.map]
      unfold normalizeTemplate
      rw [setTemplateNodeSelector_setTemplateNodeSelector]
      simp only [setTemplateNodeSelector_sel, Option.getD_some]
      rw [mapDel_mapSet, mapDel_mapDel]
    rw [hnorm]
    simp [hasSpecChanged, hrec]
  · intro s₁ s₂ t' h₁ h₂
    rw [hasTargetChanged_spec env cd s₁ _ hget h₁, hasTargetChanged_spec env cd s₂ _ hget h₂]
    have : normalizeTemplate (setNodeSelector t' none).spec.template
        = normalizeTemplate (setNodeSelector t' (some [])).spec.template := by
      unfold normalizeTemplate
      rw [setNodeSelector_template, setNodeSelector_template,
        setTemplateNodeSelector_setTemplateNodeSelector,
        setTemplateNodeSelector_setTemplateNodeSelector]
      simp
    rw [this]

/-- The demo canary with the recorded hash of the demo target's template. -/
def demoCanaryRecorded : Canary :=
  { demoCanary with lastAppliedTemplate := some (normalizeTemplate demoTarget.spec.template) }

/-- Witness for C8: concrete fault-free round trip and nil/empty pair. -/
theorem c8_drift_insensitive_witness :
    (HasTargetChanged happyEnv demoCanaryRecorded
        (ScaleFromZero happyEnv demoCanaryRecorded
          (ScaleToZero happyEnv demoCanaryRecorded
            ⟨[(("test", "demo"), demoTarget)], []⟩).2).2).1 = .ok false
    ∧ (HasTargetChanged happyEnv demoCanaryRecorded
        ⟨[(("test", "demo"), setNodeSelector demoTarget none)], []⟩).1
      = (HasTargetChanged happyEnv demoCanaryRecorded
        ⟨[(("test", "demo"), setNodeSelector demoTarget (some []))], []⟩).1 := by
  have h := c8_drift_insensitive happyEnv demoCanaryRecorded
    ⟨[(("test", "demo"), demoTarget)], []⟩ demoTarget
    (by decide) (by decide) (by decide) (by decide) (by decide) rfl
  exact ⟨h.1, h.2 ⟨[(("test", "demo"), setNodeSelector demoTarget none)], []⟩
    ⟨[(("test", "demo"), setNodeSelector demoTarget (some []))], []⟩ demoTarget
    (by decide) (by decide)⟩

/-! ## Promotion (claim C10) -/

@[simp] theorem applyPrimaryConfigs_nodeSelector (ps : PodSpec) (refs : List String) :
    (applyPrimaryConfigs ps refs).nodeSelector = ps.nodeSelector := rfl

/-- The C10 target: arbitrary CloneSet with declared min-ready-seconds 5
and selector match-labels resolving under the candidate key "app". -/
def c10Target (t : CloneSet) (v : String) : CloneSet :=
  { t with spec :=
    { t.spec with minReadySeconds := 5, selectorMatchLabels := [("app", v)] } }

/-- The C10 primary: arbitrary CloneSet at the primary key with declared
min-ready-seconds 0. -/
def c10Primary (p : CloneSet) : CloneSet :=
  { p with ns := "test", name := "demo-primary", spec :=
    { p.spec with minReadySeconds := 0 } }

/-- Claim C10: for every target with declared min-ready-seconds 5 and
primary with min-ready-seconds 0 (the selector resolving under the
candidate key "app"; template, labels and node selector arbitrary, so the
target may or may not carry the scale-to-zero marker), Promote succeeds and
writes a primary whose min-ready-seconds is 5, whose pod template carries
the primary selector value under the resolved label, and whose node
selector does not contain the scale-to-zero marker. -/
theorem c10_promote_fields (t p : CloneSet) (v : String) :
    (Promote happyEnv demoCanary
        ⟨[(("test", "demo"), c10Target t v), (("test", "demo-primary"), c10Primary p)], []⟩).1
      = .ok ()
    ∧ ∃ p', clusterGet (Promote happyEnv demoCanary
          ⟨[(("test", "demo"), c10Target t v), (("test", "demo-primary"), c10Primary p)], []⟩).2.cluster
          ("test", "demo-primary") = some p'
        ∧ p'.spec.minReadySeconds = 5
        ∧ mapGet p'.spec.template.labels "app" = some (v ++ "-primary")
        ∧ ∀ m, p'.spec.template.spec.nodeSelector = some m →
            mapGet m "flagger.app/scale-to-zero" = none := by
  refine ⟨rfl, ⟨_, rfl, rfl, mapGet_mapSet_self _ _ _, ?_⟩⟩
  intro m hm
  simp only [applyPrimaryConfigs_nodeSelector, delScaleDownSelector_def] at hm
  cases hsel0 : (c10Target t v).spec.template.spec.nodeSelector with
  | none =>
    rw [hsel0] at hm
    cases hm
  | some m₀ =>
    rw [hsel0] at hm
    simp only [Option.map] at hm
    cases hm
    exact mapGet_mapDel_self m₀ _

/-- Witness for C4 at a concrete CloneSet, deadline and clock. -/
theorem c4_deadline_rules_unreachable_witness :
    (isCloneSetReady demoPrimaryZero 60 0).1 = true
    ∧ (isCloneSetReady demoPrimaryZero 60 0).2
        ≠ some (.progressDeadlineExceeded "demo-primary") :=
  ⟨(c4_deadline_rules_unreachable demoPrimaryZero 60 0).2.1,
   (c4_deadline_rules_unreachable demoPrimaryZero 60 0).2.2 "demo-primary"⟩

/-- Witness for C10 at concrete target and primary objects. -/
theorem c10_promote_fields_witness :
    (Promote happyEnv demoCanary
        ⟨[(("test", "demo"), c10Target demoTarget "demo"),
          (("test", "demo-primary"), c10Primary demoPrimaryZero)], []⟩).1 = .ok () :=
  (c10_promote_fields demoTarget demoPrimaryZero "demo").1

/-! ## Initialize gating (claim C6) -/

/-- The demo canary with analysis skipped. -/
def skipCanary : Canary :=
  { demoCanary with skipAnalysisFlag := true }

/-- Claim C6 (counterexample): in the initial phase with analysis skipped,
Initialize still scales the target to zero (the skip-analysis guard only
wraps the readiness check, not the scale-down): the marker lands on the
target and an update request is issued. -/
theorem c6_skip_analysis_still_scales :
    skipCanary.phase = "" ∧ skipCanary.skipAnalysisFlag = true
    ∧ (Initialize happyEnv skipCanary
        ⟨[(("test", "demo"), demoTarget), (("test", "demo-primary"), demoPrimaryZero)], []⟩).1 = .ok ()
    ∧ ((clusterGet (Initialize happyEnv skipCanary
        ⟨[(("test", "demo"), demoTarget), (("test", "demo-primary"), demoPrimaryZero)], []⟩).2.cluster
        ("test", "demo")).map
          (fun t => mapGet (t.spec.template.spec.nodeSelector.getD []) "flagger.app/scale-to-zero"))
      = some (some "true")
    ∧ (⟨.update, "test", "demo", .ok⟩ : ApiCall) ∈ (Initialize happyEnv skipCanary
        ⟨[(("test", "demo"), demoTarget), (("test", "demo-primary"), demoPrimaryZero)], []⟩).2.log := by
  refine ⟨rfl, rfl, by decide, by decide, by decide⟩

/-- Claim C6 (amended): Initialize verifies primary readiness only in the
initial phase with analysis not skipped, but performs the scale-to-zero in
the initial phase regardless of whether analysis is skipped; outside the
initial phase it does neither, reducing to the primary-creation step alone. -/
theorem c6_initialize_gating (env : Env) (cd : Canary) (s : St) :
    (cd.phase ≠ "" → cd.phase ≠ "Initializing" →
      Initialize env cd s =
        (match createPrimaryCloneSet env cd s with
         | (.error e, s₁) => (.error (.wrap "createPrimaryCloneSet failed" e), s₁)
         | (.ok _, s₁) => (.ok (), s₁)))
    ∧ ((cd.phase = "" ∨ cd.phase = "Initializing") → cd.skipAnalysisFlag = true →
      Initialize env cd s =
        (match createPrimaryCloneSet env cd s with
         | (.error e, s₁) => (.error (.wrap "createPrimaryCloneSet failed" e), s₁)
         | (.ok _, s₁) =>
           match ScaleToZero env cd s₁ with
           | (.error e, s₂) => (.error (.wrap "ScaleToZero failed" e), s₂)
           | (.ok _, s₂) => (.ok (), s₂)))
    ∧ ((cd.phase = "" ∨ cd.phase = "Initializing") → cd.skipAnalysisFlag = false →
      Initialize env cd s =
        (match createPrimaryCloneSet env cd s with
         | (.error e, s₁) => (.error (.wrap "createPrimaryCloneSet failed" e), s₁)
         | (.ok _, s₁) =>
           match IsPrimaryReady env cd s₁ with
           | (.error e, s₂) => (.error (.wrap "" e), s₂)
           | (.ok _, s₂) =>
             match ScaleToZero env cd s₂ with
             | (.error e, s₃) => (.error (.wrap "ScaleToZero failed" e), s₃)
             | (.ok _, s₃) => (.ok (), s₃))) := by
  refine ⟨?_, ?_, ?_⟩
  · intro h1 h2
    have hcond : ¬ (cd.phase = "" ∨ cd.phase = "Initializing") := by
      rintro (h | h)
      · exact h1 h
      · exact h2 h
    unfold Initialize
    rcases hc : createPrimaryCloneSet env cd s with ⟨res, s₁⟩
    cases res with
    | error e => simp only [hc]
    | ok u => simp only [hc, if_neg hcond]
  · intro hphase hskip
    unfold Initialize
    rcases hc : createPrimaryCloneSet env cd s with ⟨res, s₁⟩
    cases res with
    | error e => simp only [hc]
    | ok u =>
      simp only [hc, if_pos hphase, hskip, if_true]
  · intro hphase hskip
    unfold Initialize
    rcases hc : createPrimaryCloneSet env cd s with ⟨res, s₁⟩
    cases res with
    | error e => simp only [hc]
    | ok u =>
      simp only [hc, if_pos hphase, hskip]
      rcases hr : IsPrimaryReady env cd s₁ with ⟨res2, s₂⟩
      cases res2 with
      | error e => simp [hr]
      | ok u2 =>
        rcases hs : ScaleToZero env cd s₂ with ⟨res3, s₃⟩
        cases res3 with
        | error e => simp [hr, hs]
        | ok u3 => simp [hr, hs]

/-- Witness for C6: all three gating branches at concrete inputs. -/
theorem c6_initialize_gating_witness :
    Initialize happyEnv { demoCanary with phase := "Promoting" }
        ⟨[(("test", "demo"), demoTarget), (("test", "demo-primary"), demoPrimaryZero)], []⟩ =
      (match createPrimaryCloneSet happyEnv { demoCanary with phase := "Promoting" }
          ⟨[(("test", "demo"), demoTarget), (("test", "demo-primary"), demoPrimaryZero)], []⟩ with
       | (.error e, s₁) => (.error (.wrap "createPrimaryCloneSet failed" e), s₁)
       | (.ok _, s₁) => (.ok (), s₁))
    ∧ Initialize happyEnv skipCanary
        ⟨[(("test", "demo"), demoTarget), (("test", "demo-primary"), demoPrimaryZero)], []⟩ =
      (match createPrimaryCloneSet happyEnv skipCanary
          ⟨[(("test", "demo"), demoTarget), (("test", "demo-primary"), demoPrimaryZero)], []⟩ with
       | (.error e, s₁) => (.error (.wrap "createPrimaryCloneSet failed" e), s₁)
       | (.ok _, s₁) =>
         match ScaleToZero happyEnv skipCanary s₁ with
         | (.error e, s₂) => (.error (.wrap "ScaleToZero failed" e), s₂)
         | (.ok _, s₂) => (.ok (), s₂))
    ∧ Initialize happyEnv demoCanary
        ⟨[(("test", "demo"), demoTarget), (("test", "demo-primary"), demoPrimaryZero)], []⟩ =
      (match createPrimaryCloneSet happyEnv demoCanary
          ⟨[(("test", "demo"), demoTarget), (("test", "demo-primary"), demoPrimaryZero)], []⟩ with
       | (.error e, s₁) => (.error (.wrap "createPrimaryCloneSet failed" e), s₁)
       | (.ok _, s₁) =>
         match IsPrimaryReady happyEnv demoCanary s₁ with
         | (.error e, s₂) => (.error (.wrap "" e), s₂)
         | (.ok _, s₂) =>
           match ScaleToZero happyEnv demoCanary s₂ with
           | (.error e, s₃) => (.error (.wrap "ScaleToZero failed" e), s₃)
           | (.ok _, s₃) => (.ok (), s₃)) := by
  refine ⟨?_, ?_, ?_⟩
  · exact (c6_initialize_gating happyEnv { demoCanary with phase := "Promoting" }
      ⟨[(("test", "demo"), demoTarget), (("test", "demo-primary"), demoPrimaryZero)], []⟩).1
      (by decide) (by decide)
  · exact (c6_initialize_gating happyEnv skipCanary
      ⟨[(("test", "demo"), demoTarget), (("test", "demo-primary"), demoPrimaryZero)], []⟩).2.1
      (Or.inl rfl) rfl
  · exact (c6_initialize_gating happyEnv demoCanary
      ⟨[(("test", "demo"), demoTarget), (("test", "demo-primary"), demoPrimaryZero)], []⟩).2.2
      (Or.inl rfl) rfl

/-! ## Frame effects (claim C9) -/

theorem self_ne_append_primary (s : String) : s ++ "-primary" ≠ s := by
  intro h
  have hl := congrArg String.length h
  rw [String.length_append] at hl
  have h8 : ("-primary" : String).length = 8 := rfl
  rw [h8] at hl
  omega

theorem isPrimaryReady_effects (env : Env) (cd : Canary) (s : St) :
    (IsPrimaryReady env cd s).2.cluster = s.cluster
    ∧ ∃ l, (IsPrimaryReady env cd s).2.log = s.log ++ l ∧ ∀ c ∈ l, c.kind = .get := by
  unfold IsPrimaryReady
  cases hgf : env.getFail cd.ns (cd.targetName ++ "-primary") with
  | some m =>
    simp only [getCloneSet, hgf, logCall]
    exact ⟨by simp, [⟨.get, cd.ns, cd.targetName ++ "-primary", .failed⟩], by simp, by simp⟩
  | none =>
    cases hcl : clusterGet s.cluster (cd.ns, cd.targetName ++ "-primary") with
    | none =>
      simp only [getCloneSet, hgf, hcl, logCall]
      exact ⟨by simp, [⟨.get, cd.ns, cd.targetName ++ "-primary", .notFound⟩], by simp, by simp⟩
    | some pr =>
      simp only [getCloneSet, hgf, hcl, logCall]
      cases hr : (isCloneSetReady pr cd.progressDeadlineSeconds env.now).2 with
      | some e =>
        simp only [hr]
        exact ⟨by simp, [⟨.get, cd.ns, cd.targetName ++ "-primary", .ok⟩], by simp, by simp⟩
      | none =>
        simp only [hr, replicasPtrEqFreshZero, Bool.false_eq_true, if_false]
        exact ⟨by simp, [⟨.get, cd.ns, cd.targetName ++ "-primary", .ok⟩], by simp, by simp⟩

theorem createPrimaryCloneSet_effects_present (env : Env) (cd : Canary) (s : St) (p : CloneSet)
    (hp : clusterGet s.cluster (cd.ns, cd.targetName ++ "-primary") = some p) :
    (createPrimaryCloneSet env cd s).2.cluster = s.cluster
    ∧ ∃ l, (createPrimaryCloneSet env cd s).2.log = s.log ++ l ∧ ∀ c ∈ l, c.kind = .get := by
  unfold createPrimaryCloneSet
  cases hgf : env.getFail cd.ns cd.targetName with
  | some m =>
    simp only [getCloneSet, hgf, logCall]
    exact ⟨by simp, [⟨.get, cd.ns, cd.targetName, .failed⟩], by simp, by simp⟩
  | none =>
    cases hcl : clusterGet s.cluster (cd.ns, cd.targetName) with
    | none =>
      simp only [getCloneSet, hgf, hcl, logCall]
      exact ⟨by simp, [⟨.get, cd.ns, cd.targetName, .notFound⟩], by simp, by simp⟩
    | some t =>
      simp only [getCloneSet, hgf, hcl, logCall]
      by_cases hstrat : t.spec.updateStrategyType ≠ "" ∧
          t.spec.updateStrategyType ≠ RecreateCloneSetUpdateStrategyType
      · rw [if_pos hstrat]
        exact ⟨by simp, [⟨.get, cd.ns, cd.targetName, .ok⟩], by simp, by simp⟩
      · rw [if_neg hstrat]
        cases hsel : getSelectorLabel env t with
        | error e =>
          simp only [hsel]
          exact ⟨by simp, [⟨.get, cd.ns, cd.targetName, .ok⟩], by simp, by simp⟩
        | ok lv =>
          rcases lv with ⟨lab, lv⟩
          simp only [hsel]
          cases hgf2 : env.getFail cd.ns (cd.targetName ++ "-primary") with
          | some m =>
            simp only [getCloneSet, hgf2, logCall, GoErr.isNotFound, Bool.false_eq_true, if_false]
            exact ⟨by simp, [⟨.get, cd.ns, cd.targetName, .ok⟩,
              ⟨.get, cd.ns, cd.targetName ++ "-primary", .failed⟩], by simp, by simp⟩
          | none =>
            simp only [getCloneSet, hgf2, hp, logCall]
            exact ⟨by simp, [⟨.get, cd.ns, cd.targetName, .ok⟩,
              ⟨.get, cd.ns, cd.targetName ++ "-primary", .ok⟩], by simp, by simp⟩

theorem scaleToZero_effects (env : Env) (cd : Canary) (s : St)
    (htwf : ∀ t', clusterGet s.cluster (cd.ns, cd.targetName) = some t' →
        t'.ns = cd.ns ∧ t'.name = cd.targetName) :
    (∀ k, k ≠ (cd.ns, cd.targetName) →
      clusterGet (ScaleToZero env cd s).2.cluster k = clusterGet s.cluster k)
    ∧ ∃ l, (ScaleToZero env cd s).2.log = s.log ++ l
        ∧ ∀ c ∈ l, c.kind ≠ .create ∧ c.ns = cd.ns ∧ c.name = cd.targetName := by
  unfold ScaleToZero
  cases hgf : env.getFail cd.ns cd.targetName with
  | some m =>
    simp only [getCloneSet, hgf, logCall]
    exact ⟨by simp, [⟨.get, cd.ns, cd.targetName, .failed⟩], by simp, by simp⟩
  | none =>
    cases hcl : clusterGet s.cluster (cd.ns, cd.targetName) with
    | none =>
      simp only [getCloneSet, hgf, hcl, logCall]
      exact ⟨by simp, [⟨.get, cd.ns, cd.targetName, .notFound⟩], by simp, by simp⟩
    | some t =>
      obtain ⟨hns, hname⟩ := htwf t hcl
      simp only [getCloneSet, hgf, hcl, logCall]
      unfold updateCloneSet
      simp only [setNodeSelector_ns, setNodeSelector_name, hns, hname]
      cases huf : env.updateFail cd.ns cd.targetName with
      | some m =>
        simp only [huf, logCall]
        exact ⟨by simp, [⟨.get, cd.ns, cd.targetName, .ok⟩,
          ⟨.update, cd.ns, cd.targetName, .failed⟩], by simp, by simp⟩
      | none =>
        simp only [huf, hcl, logCall]
        refine ⟨?_, [⟨.get, cd.ns, cd.targetName, .ok⟩,
          ⟨.update, cd.ns, cd.targetName, .ok⟩], by simp, by simp⟩
        intro k hk
        exact clusterGet_clusterSet_other s.cluster (cd.ns, cd.targetName) k _ hk

theorem initializeScaleTail (env : Env) (cd : Canary) (s sx : St) (p : CloneSet)
    (lx : List ApiCall)
    (hcx : sx.cluster = s.cluster)
    (hlx : sx.log = s.log ++ lx)
    (hlxget : ∀ c ∈ lx, c.kind = .get)
    (htwf : ∀ t', clusterGet s.cluster (cd.ns, cd.targetName) = some t' →
        t'.ns = cd.ns ∧ t'.name = cd.targetName)
    (hp : clusterGet s.cluster (cd.ns, cd.targetName ++ "-primary") = some p) :
    clusterGet (ScaleToZero env cd sx).2.cluster (cd.ns, cd.targetName ++ "-primary") = some p
    ∧ ∃ l, (ScaleToZero env cd sx).2.log = s.log ++ l ∧ ∀ c ∈ l,
        c.kind ≠ .create ∧ (c.kind = .update → c.name ≠ cd.targetName ++ "-primary") := by
  have htwf' : ∀ t', clusterGet sx.cluster (cd.ns, cd.targetName) = some t' →
      t'.ns = cd.ns ∧ t'.name = cd.targetName := by
    rw [hcx]
    exact htwf
  obtain ⟨hframe, l₃, hlog3, hl3⟩ := scaleToZero_effects env cd sx htwf'
  have hkey : ((cd.ns, cd.targetName ++ "-primary") : String × String) ≠ (cd.ns, cd.targetName) := by
    intro hh
    exact self_ne_append_primary cd.targetName (congrArg Prod.snd hh)
  constructor
  · rw [hframe _ hkey, hcx]
    exact hp
  · refine ⟨lx ++ l₃, ?_, ?_⟩
    · rw [hlog3, hlx, List.append_assoc]
    · intro c hcmem
      rcases List.mem_append.mp hcmem with h | h
      · have hg := hlxget c h
        refine ⟨(by rw [hg]; intro hh; cases hh), ?_⟩
        intro hupd
        rw [hg] at hupd
        cases hupd
      · obtain ⟨hnc, _, hname'⟩ := hl3 c h
        refine ⟨hnc, fun _ => ?_⟩
        rw [hname']
        intro hh
        exact self_ne_append_primary cd.targetName hh.symm

/-- Claim C9: when the primary CloneSet already exists, Initialize issues no
create request at all and no update request addressed to the primary, and
the stored primary object is unchanged (the only update Initialize may
issue is the scale-down of the target).  The store is assumed consistent at
the target key (the stored object carries the key's namespace and name). -/
theorem c9_initialize_existing_primary_noop (env : Env) (cd : Canary) (s : St) (p : CloneSet)
    (htwf : ∀ t', clusterGet s.cluster (cd.ns, cd.targetName) = some t' →
        t'.ns = cd.ns ∧ t'.name = cd.targetName)
    (hp : clusterGet s.cluster (cd.ns, cd.targetName ++ "-primary") = some p) :
    clusterGet (Initialize env cd s).2.cluster (cd.ns, cd.targetName ++ "-primary") = some p
    ∧ ∃ l, (Initialize env cd s).2.log = s.log ++ l ∧ ∀ c ∈ l,
        c.kind ≠ .create ∧ (c.kind = .update → c.name ≠ cd.targetName ++ "-primary") := by
  obtain ⟨hcl1, l₁, hlog1, hget1⟩ := createPrimaryCloneSet_effects_present env cd s p hp
  unfold Initialize
  rcases hc : createPrimaryCloneSet env cd s with ⟨res, s₁⟩
  rw [hc] at hcl1 hlog1
  have hgetsP : ∀ (l' : List ApiCall), (∀ c ∈ l', c.kind = .get) → ∀ c ∈ l',
      c.kind ≠ .create ∧ (c.kind = .update → c.name ≠ cd.targetName ++ "-primary") := by
    intro l' hl' c hcm
    have hg := hl' c hcm
    refine ⟨(by rw [hg]; intro hh; cases hh), ?_⟩
    intro hupd
    rw [hg] at hupd
    cases hupd
  cases res with
  | error e =>
    simp only [hc]
    exact ⟨by rw [hcl1]; exact hp, l₁, hlog1, hgetsP l₁ hget1⟩
  | ok u =>
    simp only [hc]
    by_cases hph : cd.phase = "" ∨ cd.phase = "Initializing"
    · rw [if_pos hph]
      cases hsk : cd.skipAnalysisFlag with
      | true =>
        simp only [hsk, if_true]
        rcases hsc : ScaleToZero env cd s₁ with ⟨res3, s₃⟩
        have htail := initializeScaleTail env cd s s₁ p l₁ hcl1 hlog1 hget1 htwf hp
        rw [hsc] at htail
        cases res3 with
        | error e => simp only; exact htail
        | ok u3 => simp only; exact htail
      | false =>
        simp only [hsk, Bool.false_eq_true, if_false]
        rcases hst : IsPrimaryReady env cd s₁ with ⟨res2, s₂⟩
        obtain ⟨hcl2, l₂, hlog2, hget2⟩ := isPrimaryReady_effects env cd s₁
        rw [hst] at hcl2 hlog2
        have hcl2' : s₂.cluster = s.cluster := by rw [hcl2, hcl1]
        have hlog2' : s₂.log = s.log ++ (l₁ ++ l₂) := by
          rw [hlog2, hlog1, List.append_assoc]
        have hget12 : ∀ c ∈ l₁ ++ l₂, c.kind = .get := by
          intro c hcm
          rcases List.mem_append.mp hcm with h | h
          · exact hget1 c h
          · exact hget2 c h
        cases res2 with
        | error e =>
          simp only [hst]
          exact ⟨by rw [hcl2']; exact hp, l₁ ++ l₂, hlog2', hgetsP _ hget12⟩
        | ok u2 =>
          simp only [hst]
          rcases hsc : ScaleToZero env cd s₂ with ⟨res3, s₃⟩
          have htail := initializeScaleTail env cd s s₂ p (l₁ ++ l₂) hcl2' hlog2' hget12 htwf hp
          rw [hsc] at htail
          cases res3 with
          | error e => simp only; exact htail
          | ok u3 => simp only; exact htail
    · rw [if_neg hph]
      exact ⟨by rw [hcl1]; exact hp, l₁, hlog1, hgetsP l₁ hget1⟩

/-- Witness for C9: a concrete Initialize run with the primary present. -/
theorem c9_initialize_existing_primary_noop_witness :
    clusterGet (Initialize happyEnv demoCanary
        ⟨[(("test", "demo"), demoTarget), (("test", "demo-primary"), demoPrimaryZero)], []⟩).2.cluster
      ("test", "demo-primary") = some demoPrimaryZero
    ∧ ∃ l, (Initialize happyEnv demoCanary
        ⟨[(("test", "demo"), demoTarget), (("test", "demo-primary"), demoPrimaryZero)], []⟩).2.log
        = [] ++ l ∧ ∀ c ∈ l,
        c.kind ≠ .create ∧ (c.kind = .update → c.name ≠ "demo" ++ "-primary") :=
  c9_initialize_existing_primary_noop happyEnv demoCanary
    ⟨[(("test", "demo"), demoTarget), (("test", "demo-primary"), demoPrimaryZero)], []⟩
    demoPrimaryZero (by decide) (by decide)

/-! ## Error propagation (claim C5) -/

/-- Result discriminator for operations returning a value. -/
def exceptIsOk {ε α : Type} : Except ε α → Bool
  | .ok _ => true
  | .error _ => false

theorem scaleToZero_ok_log (env : Env) (cd : Canary) (s : St)
    (h : (ScaleToZero env cd s).1 = .ok ()) :
    ∀ c ∈ (ScaleToZero env cd s).2.log, c ∈ s.log ∨ c.res ≠ .failed := by
  unfold ScaleToZero at h ⊢
  cases hgf : env.getFail cd.ns cd.targetName with
  | some m => simp [getCloneSet, hgf, logCall] at h
  | none =>
    cases hcl : clusterGet s.cluster (cd.ns, cd.targetName) with
    | none => simp [getCloneSet, hgf, hcl, logCall] at h
    | some t =>
      simp only [getCloneSet, hgf, hcl, logCall] at h ⊢
      unfold updateCloneSet at h ⊢
      simp only [setNodeSelector_ns, setNodeSelector_name] at h ⊢
      cases huf : env.updateFail t.ns t.name with
      | some m => simp [huf] at h
      | none =>
        cases hcl2 : clusterGet s.cluster (t.ns, t.name) with
        | none => simp [huf, hcl2, logCall] at h
        | some t2 =>
          simp only [huf, hcl2, logCall]
          intro c hc
          rcases List.mem_append.mp hc with hc1 | hc2
          · rcases List.mem_append.mp hc1 with ha | hb
            · exact Or.inl ha
            · right
              rw [List.mem_singleton.mp hb]
              simp
          · right
            rw [List.mem_singleton.mp hc2]
            simp

theorem scaleFromZero_ok_log (env : Env) (cd : Canary) (s : St)
    (h : (ScaleFromZero env cd s).1 = .ok ()) :
    ∀ c ∈ (ScaleFromZero env cd s).2.log, c ∈ s.log ∨ c.res ≠ .failed := by
  unfold ScaleFromZero at h ⊢
  cases hgf : env.getFail cd.ns cd.targetName with
  | some m => simp [getCloneSet, hgf, logCall] at h
  | none =>
    cases hcl : clusterGet s.cluster (cd.ns, cd.targetName) with
    | none => simp [getCloneSet, hgf, hcl, logCall] at h
    | some t =>
      simp only [getCloneSet, hgf, hcl, logCall] at h ⊢
      unfold updateCloneSet at h ⊢
      simp only [setNodeSelector_ns, setNodeSelector_name] at h ⊢
      cases huf : env.updateFail t.ns t.name with
      | some m => simp [huf] at h
      | none =>
        cases hcl2 : clusterGet s.cluster (t.ns, t.name) with
        | none => simp [huf, hcl2, logCall] at h
        | some t2 =>
          simp only [huf, hcl2, logCall]
          intro c hc
          rcases List.mem_append.mp hc with hc1 | hc2
          · rcases List.mem_append.mp hc1 with ha | hb
            · exact Or.inl ha
            · right
              rw [List.mem_singleton.mp hb]
              simp
          · right
            rw [List.mem_singleton.mp hc2]
            simp

theorem finalize_ok_log (env : Env) (cd : Canary) (s : St)
    (h : (Finalize env cd s).1 = .ok ()) :
    ∀ c ∈ (Finalize env cd s).2.log, c ∈ s.log ∨ c.res ≠ .failed := by
  unfold Finalize at h ⊢
  rcases hsf : ScaleFromZero env cd s with ⟨res, s₁⟩
  cases res with
  | error e => simp [hsf] at h
  | ok u =>
    simp only [hsf]
    have h' : (ScaleFromZero env cd s).1 = .ok () := by rw [hsf]
    have := scaleFromZero_ok_log env cd s h'
    rw [hsf] at this
    exact this

theorem hasTargetChanged_ok_log (env : Env) (cd : Canary) (s : St)
    (h : exceptIsOk (HasTargetChanged env cd s).1 = true) :
    ∀ c ∈ (HasTargetChanged env cd s).2.log, c ∈ s.log ∨ c.res ≠ .failed := by
  unfold HasTargetChanged at h ⊢
  cases hgf : env.getFail cd.ns cd.targetName with
  | some m => simp [getCloneSet, hgf, logCall, exceptIsOk] at h
  | none =>
    cases hcl : clusterGet s.cluster (cd.ns, cd.targetName) with
    | none => simp [getCloneSet, hgf, hcl, logCall, exceptIsOk] at h
    | some t =>
      simp only [getCloneSet, hgf, hcl, logCall]
      intro c hc
      rcases List.mem_append.mp hc with hc1 | hc2
      · exact Or.inl hc1
      · right
        rw [List.mem_singleton.mp hc2]
        simp

theorem getMetadata_ok_log (env : Env) (cd : Canary) (s : St)
    (h : exceptIsOk (GetMetadata env cd s).1 = true) :
    ∀ c ∈ (GetMetadata env cd s).2.log, c ∈ s.log ∨ c.res ≠ .failed := by
  unfold GetMetadata at h ⊢
  cases hgf : env.getFail cd.ns cd.targetName with
  | some m => simp [getCloneSet, hgf, logCall, exceptIsOk] at h
  | none =>
    cases hcl : clusterGet s.cluster (cd.ns, cd.targetName) with
    | none => simp [getCloneSet, hgf, hcl, logCall, exceptIsOk] at h
    | some t =>
      simp only [getCloneSet, hgf, hcl, logCall]
      cases hsel : getSelectorLabel env t with
      | error e =>
        simp only [hsel]
        intro c hc
        rcases List.mem_append.mp hc with hc1 | hc2
        · exact Or.inl hc1
        · right
          rw [List.mem_singleton.mp hc2]
          simp
      | ok lv =>
        rcases lv with ⟨lab, lv⟩
        simp only [hsel]
        intro c hc
        rcases List.mem_append.mp hc with hc1 | hc2
        · exact Or.inl hc1
        · right
          rw [List.mem_singleton.mp hc2]
          simp

theorem isPrimaryReady_ok_log (env : Env) (cd : Canary) (s : St)
    (h : (IsPrimaryReady env cd s).1 = .ok ()) :
    ∀ c ∈ (IsPrimaryReady env cd s).2.log, c ∈ s.log ∨ c.res ≠ .failed := by
  unfold IsPrimaryReady at h ⊢
  cases hgf : env.getFail cd.ns (cd.targetName ++ "-primary") with
  | some m => simp [getCloneSet, hgf, logCall] at h
  | none =>
    cases hcl : clusterGet s.cluster (cd.ns, cd.targetName ++ "-primary") with
    | none => simp [getCloneSet, hgf, hcl, logCall] at h
    | some pr =>
      simp only [getCloneSet, hgf, hcl, logCall]
      cases hr : (isCloneSetReady pr cd.progressDeadlineSeconds env.now).2 with
      | some e =>
        simp [getCloneSet, hgf, hcl, logCall, hr] at h
      | none =>
        simp only [hr, replicasPtrEqFreshZero, Bool.false_eq_true, if_false]
        intro c hc
        rcases List.mem_append.mp hc with hc1 | hc2
        · exact Or.inl hc1
        · right
          rw [List.mem_singleton.mp hc2]
          simp

theorem isCanaryReady_ok_log (env : Env) (cd : Canary) (s : St)
    (h : (IsCanaryReady env cd s).1.2 = none) :
    ∀ c ∈ (IsCanaryReady env cd s).2.log, c ∈ s.log ∨ c.res ≠ .failed := by
  unfold IsCanaryReady at h ⊢
  cases hgf : env.getFail cd.ns cd.targetName with
  | some m => simp [getCloneSet, hgf, logCall] at h
  | none =>
    cases hcl : clusterGet s.cluster (cd.ns, cd.targetName) with
    | none => simp [getCloneSet, hgf, hcl, logCall] at h
    | some t =>
      simp only [getCloneSet, hgf, hcl, logCall]
      rcases hr : isCloneSetReady t cd.progressDeadlineSeconds env.now with ⟨rb, ro⟩
      cases ro with
      | some e =>
        simp [getCloneSet, hgf, hcl, logCall, hr] at h
      | none =>
        simp only [hr]
        intro c hc
        rcases List.mem_append.mp hc with hc1 | hc2
        · exact Or.inl hc1
        · right
          rw [List.mem_singleton.mp hc2]
          simp

theorem promote_ok_log (env : Env) (cd : Canary) (s : St)
    (h : (Promote env cd s).1 = .ok ()) :
    ∀ c ∈ (Promote env cd s).2.log, c ∈ s.log ∨ c.res ≠ .failed := by
  unfold Promote at h ⊢
  cases hgf : env.getFail cd.ns cd.targetName with
  | some m => simp [getCloneSet, hgf, logCall] at h
  | none =>
    cases hcl : clusterGet s.cluster (cd.ns, cd.targetName) with
    | none => simp [getCloneSet, hgf, hcl, logCall] at h
    | some t =>
      simp only [getCloneSet, hgf, hcl, logCall] at h ⊢
      cases hsel : getSelectorLabel env t with
      | error e => simp [hsel] at h
      | ok lv =>
        rcases lv with ⟨lab, lv⟩
        simp only [hsel] at h ⊢
        cases hgf2 : env.getFail cd.ns (cd.targetName ++ "-primary") with
        | some m => simp [hgf2, logCall] at h
        | none =>
          cases hcl2 : clusterGet s.cluster (cd.ns, cd.targetName ++ "-primary") with
          | none => simp [hgf2, hcl2, logCall] at h
          | some pr =>
            simp only [hgf2, hcl2, logCall] at h ⊢
            cases htc : env.targetConfigs with
            | error e => simp [trackerGetTargetConfigs, htc] at h
            | ok refs =>
              simp only [trackerGetTargetConfigs, htc] at h ⊢
              cases hcc : env.createConfigsFail with
              | some e => simp [trackerCreatePrimaryConfigs, hcc] at h
              | none =>
                simp only [trackerCreatePrimaryConfigs, hcc, makeAnnotations] at h ⊢
                unfold updateCloneSet at h ⊢
                cases huf : env.updateFail pr.ns pr.name with
                | some m => simp [huf] at h
                | none =>
                  cases hcl3 : clusterGet s.cluster (pr.ns, pr.name) with
                  | none => simp [huf, hcl3, logCall] at h
                  | some x =>
                    simp only [huf, hcl3, logCall]
                    intro c hc
                    rcases List.mem_append.mp hc with hc1 | hc2
                    · rcases List.mem_append.mp hc1 with ha | hb
                      · rcases List.mem_append.mp ha with ha1 | ha2
                        · exact Or.inl ha1
                        · right
                          rw [List.mem_singleton.mp ha2]
                          simp
                      · right
                        rw [List.mem_singleton.mp hb]
                        simp
                    · right
                      rw [List.mem_singleton.mp hc2]
                      simp

theorem createPrimaryCloneSet_ok_log (env : Env) (cd : Canary) (s : St)
    (h : (createPrimaryCloneSet env cd s).1 = .ok ()) :
    ∀ c ∈ (createPrimaryCloneSet env cd s).2.log, c ∈ s.log ∨ c.res ≠ .failed
      ∨ (c.kind = .get ∧ c.name = cd.targetName ++ "-primary") := by
  unfold createPrimaryCloneSet at h ⊢
  cases hgf : env.getFail cd.ns cd.targetName with
  | some m => simp [getCloneSet, hgf, logCall] at h
  | none =>
    cases hcl : clusterGet s.cluster (cd.ns, cd.targetName) with
    | none => simp [getCloneSet, hgf, hcl, logCall] at h
    | some t =>
      simp only [getCloneSet, hgf, hcl, logCall] at h ⊢
      by_cases hstrat : t.spec.updateStrategyType ≠ "" ∧
          t.spec.updateStrategyType ≠ RecreateCloneSetUpdateStrategyType
      · rw [if_pos hstrat] at h
        simp at h
      · rw [if_neg hstrat] at h ⊢
        cases hsel : getSelectorLabel env t with
        | error e => simp [hsel] at h
        | ok lv =>
          rcases lv with ⟨lab, lv⟩
          simp only [hsel] at h ⊢
          cases hgf2 : env.getFail cd.ns (cd.targetName ++ "-primary") with
          | some m =>
            simp only [getCloneSet, hgf2, logCall, GoErr.isNotFound,
              Bool.false_eq_true, if_false] at h ⊢
            intro c hc
            rcases List.mem_append.mp hc with hc1 | hc2
            · rcases List.mem_append.mp hc1 with ha | hb
              · exact Or.inl ha
              · right
                left
                rw [List.mem_singleton.mp hb]
                simp
            · right
              right
              rw [List.mem_singleton.mp hc2]
              exact ⟨rfl, rfl⟩
          | none =>
            cases hcl2 : clusterGet s.cluster (cd.ns, cd.targetName ++ "-primary") with
            | some pr =>
              simp only [getCloneSet, hgf2, hcl2, logCall]
              intro c hc
              rcases List.mem_append.mp hc with hc1 | hc2
              · rcases List.mem_append.mp hc1 with ha | hb
                · exact Or.inl ha
                · right
                  left
                  rw [List.mem_singleton.mp hb]
                  simp
              · right
                left
                rw [List.mem_singleton.mp hc2]
                simp
            | none =>
              simp only [getCloneSet, hgf2, hcl2, logCall, GoErr.isNotFound, if_true] at h ⊢
              cases htc : env.targetConfigs with
              | error e => simp [trackerGetTargetConfigs, htc] at h
              | ok refs =>
                simp only [trackerGetTargetConfigs, htc] at h ⊢
                cases hcc : env.createConfigsFail with
                | some e => simp [trackerCreatePrimaryConfigs, hcc] at h
                | none =>
                  simp only [trackerCreatePrimaryConfigs, hcc, makeAnnotations] at h ⊢
                  unfold createCloneSet at h ⊢
                  cases hcf : env.createFail cd.ns (cd.targetName ++ "-primary") with
                  | some m => simp [hcf] at h
                  | none =>
                    simp only [hcf, hcl2, logCall]
                    intro c hc
                    rcases List.mem_append.mp hc with hc1 | hc2
                    · rcases List.mem_append.mp hc1 with ha | hb
                      · rcases List.mem_append.mp ha with ha1 | ha2
                        · exact Or.inl ha1
                        · right
                          left
                          rw [List.mem_singleton.mp ha2]
                          simp
                      · right
                        left
                        rw [List.mem_singleton.mp hb]
                        simp
                    · right
                      left
                      rw [List.mem_singleton.mp hc2]
                      simp

theorem initialize_ok_log (env : Env) (cd : Canary) (s : St)
    (h : (Initialize env cd s).1 = .ok ()) :
    ∀ c ∈ (Initialize env cd s).2.log, c ∈ s.log ∨ c.res ≠ .failed
      ∨ (c.kind = .get ∧ c.name = cd.targetName ++ "-primary") := by
  unfold Initialize at h ⊢
  rcases hc : createPrimaryCloneSet env cd s with ⟨res, s₁⟩
  cases res with
  | error e => simp [hc] at h
  | ok u =>
    have hcp : (createPrimaryCloneSet env cd s).1 = .ok () := by rw [hc]
    have hl1 := createPrimaryCloneSet_ok_log env cd s hcp
    rw [hc] at hl1
    simp only [hc] at h ⊢
    by_cases hph : cd.phase = "" ∨ cd.phase = "Initializing"
    · rw [if_pos hph] at h ⊢
      cases hsk : cd.skipAnalysisFlag with
      | true =>
        simp only [hsk, if_true] at h ⊢
        rcases hsc : ScaleToZero env cd s₁ with ⟨res3, s₃⟩
        cases res3 with
        | error e => simp [hsc] at h
        | ok u3 =>
          have hsz : (ScaleToZero env cd s₁).1 = .ok () := by rw [hsc]
          have hl3 := scaleToZero_ok_log env cd s₁ hsz
          rw [hsc] at hl3
          simp only [hsc]
          intro c hcm
          rcases hl3 c hcm with hin | hres
          · exact hl1 c hin
          · exact Or.inr (Or.inl hres)
      | false =>
        simp only [hsk, Bool.false_eq_true, if_false] at h ⊢
        rcases hst : IsPrimaryReady env cd s₁ with ⟨res2, s₂⟩
        cases res2 with
        | error e => simp [hst] at h
        | ok u2 =>
          have hpr : (IsPrimaryReady env cd s₁).1 = .ok () := by rw [hst]
          have hl2 := isPrimaryReady_ok_log env cd s₁ hpr
          rw [hst] at hl2
          simp only [hst] at h ⊢
          rcases hsc : ScaleToZero env cd s₂ with ⟨res3, s₃⟩
          cases res3 with
          | error e => simp [hsc] at h
          | ok u3 =>
            have hsz : (ScaleToZero env cd s₂).1 = .ok () := by rw [hsc]
            have hl3 := scaleToZero_ok_log env cd s₂ hsz
            rw [hsc] at hl3
            simp only [hsc]
            intro c hcm
            rcases hl3 c hcm with hin | hres
            · rcases hl2 c hin with hin2 | hres2
              · exact hl1 c hin2
              · exact Or.inr (Or.inl hres2)
            · exact Or.inr (Or.inl hres)
    · rw [if_neg hph] at h ⊢
      exact hl1

/-- An environment whose only fault is a transient (non-NotFound) error on
the Get of demo-primary in namespace test. -/
def faultPrimaryGetEnv : Env :=
  { happyEnv with getFail := fun ns n =>
      if ns = "test" ∧ n = "demo-primary" then some "connection refused" else none }

/-- Claim C5 (counterexample): a transient failure of the primary-existence
Get inside createPrimaryCloneSet is discarded: the call fails, yet the
operation returns success (the code only checks `errors.IsNotFound(err)` and
falls through to `return nil` for every other error). -/
theorem c5_primary_get_error_swallowed :
    (createPrimaryCloneSet faultPrimaryGetEnv demoCanary
        ⟨[(("test", "demo"), demoTarget)], []⟩).1 = .ok ()
    ∧ (⟨.get, "test", "demo-primary", .failed⟩ : ApiCall)
        ∈ (createPrimaryCloneSet faultPrimaryGetEnv demoCanary
            ⟨[(("test", "demo"), demoTarget)], []⟩).2.log := by
  constructor
  · decide
  · decide

/-- Claim C5 (amended): every operation of the CloneSet controller
propagates every failed get, create or update call it issues — if the
operation reports success, no call logged during it failed — with one
exception: createPrimaryCloneSet (and hence Initialize) treats any
non-NotFound failure of the primary-existence Get as "primary already
present" and returns success, so a failed entry surviving a successful run
can only be a Get of the primary name. -/
theorem c5_error_propagation (env : Env) (cd : Canary) (s : St) :
    ((ScaleToZero env cd s).1 = .ok () →
      ∀ c ∈ (ScaleToZero env cd s).2.log, c ∈ s.log ∨ c.res ≠ .failed)
    ∧ ((ScaleFromZero env cd s).1 = .ok () →
      ∀ c ∈ (ScaleFromZero env cd s).2.log, c ∈ s.log ∨ c.res ≠ .failed)
    ∧ (exceptIsOk (HasTargetChanged env cd s).1 = true →
      ∀ c ∈ (HasTargetChanged env cd s).2.log, c ∈ s.log ∨ c.res ≠ .failed)
    ∧ (exceptIsOk (GetMetadata env cd s).1 = true →
      ∀ c ∈ (GetMetadata env cd s).2.log, c ∈ s.log ∨ c.res ≠ .failed)
    ∧ ((IsPrimaryReady env cd s).1 = .ok () →
      ∀ c ∈ (IsPrimaryReady env cd s).2.log, c ∈ s.log ∨ c.res ≠ .failed)
    ∧ ((IsCanaryReady env cd s).1.2 = none →
      ∀ c ∈ (IsCanaryReady env cd s).2.log, c ∈ s.log ∨ c.res ≠ .failed)
    ∧ ((Promote env cd s).1 = .ok () →
      ∀ c ∈ (Promote env cd s).2.log, c ∈ s.log ∨ c.res ≠ .failed)
    ∧ ((Finalize env cd s).1 = .ok () →
      ∀ c ∈ (Finalize env cd s).2.log, c ∈ s.log ∨ c.res ≠ .failed)
    ∧ ((createPrimaryCloneSet env cd s).1 = .ok () →
      ∀ c ∈ (createPrimaryCloneSet env cd s).2.log, c ∈ s.log ∨ c.res ≠ .failed
        ∨ (c.kind = .get ∧ c.name = cd.targetName ++ "-primary"))
    ∧ ((Initialize env cd s).1 = .ok () →
      ∀ c ∈ (Initialize env cd s).2.log, c ∈ s.log ∨ c.res ≠ .failed
        ∨ (c.kind = .get ∧ c.name = cd.targetName ++ "-primary")) :=
  ⟨scaleToZero_ok_log env cd s, scaleFromZero_ok_log env cd s,
   hasTargetChanged_ok_log env cd s, getMetadata_ok_log env cd s,
   isPrimaryReady_ok_log env cd s, isCanaryReady_ok_log env cd s,
   promote_ok_log env cd s, finalize_ok_log env cd s,
   createPrimaryCloneSet_ok_log env cd s, initialize_ok_log env cd s⟩

/-- Witness for C5: a fault-free cluster on which all ten operations
succeed, instantiated at the first call each operation logs. -/
theorem c5_error_propagation_witness :
    ((⟨.get, "test", "demo", .ok⟩ : ApiCall) ∈ ([] : List ApiCall)
      ∨ (⟨.get, "test", "demo", .ok⟩ : ApiCall).res ≠ .failed)
    ∧ ((⟨.get, "test", "demo-primary", .ok⟩ : ApiCall) ∈ ([] : List ApiCall)
      ∨ (⟨.get, "test", "demo-primary", .ok⟩ : ApiCall).res ≠ .failed)
    ∧ ((⟨.update, "test", "demo-primary", .ok⟩ : ApiCall) ∈ ([] : List ApiCall)
      ∨ (⟨.update, "test", "demo-primary", .ok⟩ : ApiCall).res ≠ .failed)
    ∧ ((⟨.get, "test", "demo", .ok⟩ : ApiCall) ∈ ([] : List ApiCall)
      ∨ (⟨.get, "test", "demo", .ok⟩ : ApiCall).res ≠ .failed
      ∨ ((⟨.get, "test", "demo", .ok⟩ : ApiCall).kind = .get
          ∧ (⟨.get, "test", "demo", .ok⟩ : ApiCall).name = "demo" ++ "-primary"))
    ∧ ((⟨.update, "test", "demo", .ok⟩ : ApiCall) ∈ ([] : List ApiCall)
      ∨ (⟨.update, "test", "demo", .ok⟩ : ApiCall).res ≠ .failed
      ∨ ((⟨.update, "test", "demo", .ok⟩ : ApiCall).kind = .get
          ∧ (⟨.update, "test", "demo", .ok⟩ : ApiCall).name = "demo" ++ "-primary")) := by
  refine ⟨?_, ?_, ?_, ?_, ?_⟩
  · exact (c5_error_propagation happyEnv demoCanary
      ⟨[(("test", "demo"), demoTarget), (("test", "demo-primary"), demoPrimaryZero)], []⟩).1
      (by decide) ⟨.get, "test", "demo", .ok⟩ (by decide)
  · exact (c5_error_propagation happyEnv demoCanary
      ⟨[(("test", "demo"), demoTarget), (("test", "demo-primary"), demoPrimaryZero)], []⟩).2.2.2.2.1
      (by decide) ⟨.get, "test", "demo-primary", .ok⟩ (by decide)
  · exact (c5_error_propagation happyEnv demoCanary
      ⟨[(("test", "demo"), demoTarget), (("test", "demo-primary"), demoPrimaryZero)], []⟩).2.2.2.2.2.2.1
      (by decide) ⟨.update, "test", "demo-primary", .ok⟩ (by decide)
  · exact (c5_error_propagation happyEnv demoCanary
      ⟨[(("test", "demo"), demoTarget), (("test", "demo-primary"), demoPrimaryZero)], []⟩).2.2.2.2.2.2.2.2.1
      (by decide) ⟨.get, "test", "demo", .ok⟩ (by decide)
  · exact (c5_error_propagation happyEnv demoCanary
      ⟨[(("test", "demo"), demoTarget), (("test", "demo-primary"), demoPrimaryZero)], []⟩).2.2.2.2.2.2.2.2.2
      (by decide) ⟨.update, "test", "demo", .ok⟩ (by decide)
